import Mathlib

/-!
Verification development for the `video_maker` repository: a shallow embedding
of the hierarchical task manager (`web/tasks/task_manager.py`) and of the
workflow automaton (`auto_continue_workflow` and `calculate_progress` in
`web/routes/simple_api.py`), together with theorems settling the specification
claims about them.

Machine floats (timestamps, progress percentages) are modelled as rationals;
Python dictionaries are modelled as insertion-ordered association lists, which
matches CPython's ordered-dict semantics used by the code (`clipping_tasks[0]`
takes the first inserted entry).
-/

namespace VideoMaker

/-- Task status enumeration mirroring `TaskStatus` in `web/tasks/task_manager.py`. -/
inductive TaskStatus
  | pending
  | running
  | completed
  | failed
  | cancelled
deriving DecidableEq, Repr

/-- String value of a status (`TaskStatus.<X>.value`). -/
def statusValue : TaskStatus → String
  | .pending => "pending"
  | .running => "running"
  | .completed => "completed"
  | .failed => "failed"
  | .cancelled => "cancelled"

/-- The `TaskStatus(str)` constructor; `none` models the `ValueError` it raises. -/
def statusOfString : String → Option TaskStatus
  | "pending" => some .pending
  | "running" => some .running
  | "completed" => some .completed
  | "failed" => some .failed
  | "cancelled" => some .cancelled
  | _ => none

/-- Lookup in an insertion-ordered dictionary (Python `d.get(k)`). -/
def dictGet {α : Type} : List (String × α) → String → Option α
  | [], _ => none
  | (k', v) :: rest, k => if k' = k then some v else dictGet rest k

/-- Python `d[k] = v`: replaces the entry in place when the key is present,
otherwise appends, preserving insertion order. -/
def dictSet {α : Type} : List (String × α) → String → α → List (String × α)
  | [], k, v => [(k, v)]
  | (k', v') :: rest, k, v =>
    if k' = k then (k, v) :: rest else (k', v') :: dictSet rest k v

/-- Python `d.update(other)`: key-wise merge of `other` into `d`. -/
def dictUpdate {α : Type} (d other : List (String × α)) : List (String × α) :=
  other.foldl (fun acc p => dictSet acc p.1 p.2) d

/-- Character-list test that `p` is an initial segment of `s`. -/
def charsLead : List Char → List Char → Bool
  | [], _ => true
  | _ :: _, [] => false
  | a :: as, b :: bs => a = b && charsLead as bs

/-- Python `s.startswith(p)`. -/
def strHasLead (s p : String) : Bool := charsLead p.data s.data

/-- Split a character list on a separator character. -/
def splitChars (sep : Char) : List Char → List (List Char)
  | [] => [[]]
  | c :: rest =>
    match splitChars sep rest with
    | [] => [[]]
    | cur :: others =>
      if c = sep then [] :: cur :: others else (c :: cur) :: others

/-- Python `s.split('_')` (structurally recursive, unlike `String.splitOn`). -/
def splitUnderscore (s : String) : List String :=
  (splitChars '_' s.data).map fun l => String.mk l

/-- JSON-ish values stored in a SubTask's `outputs` dictionary. -/
inductive Val
  | str (s : String)
  | num (q : ℚ)
  | strList (l : List String)
deriving DecidableEq, Repr

/-- The `SubTask` dataclass. -/
structure SubTask where
  type : String
  status : TaskStatus := .pending
  message : String := ""
  progress : ℚ := 0
  updated_at : ℚ := 0
  outputs : List (String × Val) := []
  error : Option String := none
deriving DecidableEq, Repr

/-- Status snapshot written into `file_info['sub_tasks']` by
`sync_subtask_to_file_info` (and by the automaton before launching a stage). -/
structure SubMirror where
  status : String
  message : String
  progress : ℚ
  error : Option String
  outputs : List (String × Val)
  updated_at : ℚ
deriving DecidableEq, Repr

/-- Entry of `artifacts['ai_clips_files']`. -/
structure FileInfo where
  path : String := ""
  system_prompt_id : String := ""
  user_prompt_id : String := ""
  created_at : ℚ := 0
  sub_tasks : List (String × SubMirror) := []
deriving DecidableEq, Repr

/-- Raw clip record from an AI clips JSON file. Python reads
`clip.get('start_time', clip.get('start'))` and the matching end key; a missing
key gives `None` and a `0` value is falsy, both modelled through `Option ℚ`
with `0` treated as falsy where the code tests truthiness. -/
structure RawClip where
  start_time : Option ℚ := none
  end_time : Option ℚ := none
  title : String := ""
  summary : String := ""
deriving DecidableEq, Repr

/-- The `artifacts` dictionary, modelled as a structure holding exactly the
keys the verified code reads or writes; a key absent from the Python dict is
the field's default value, matching every `artifacts.get(key, default)` read. -/
structure Artifacts where
  auto_mode : Bool := false
  last_auto_continue : ℚ := 0
  auto_continue_processing : Bool := false
  system_prompt_id : Option String := none
  user_prompt_id : Option String := none
  transcription_simple_path : Option String := none
  video_path : Option String := none
  video_duration : Option ℚ := none
  ai_metadata : Option (List RawClip) := none
  ai_clips_files : List FileInfo := []
deriving DecidableEq, Repr

/-- The `WorkflowTask` dataclass (the `thread` handle is runtime-only, never
serialized, and is not modelled). -/
structure WorkflowTask where
  task_id : String
  name : String
  status : TaskStatus := .pending
  message : String := ""
  error : Option String := none
  created_at : ℚ := 0
  updated_at : ℚ := 0
  artifacts : Artifacts := {}
  sub_tasks : List (String × SubTask) := []
deriving DecidableEq, Repr

/-- `TaskManager._tasks`: the in-memory registry of workflows. -/
abbrev Registry := List (String × WorkflowTask)

/-- `TaskManager.create_workflow`: installs a fresh workflow under `task_id`.
The source performs no existence check: a present entry is overwritten. -/
def create_workflow (reg : Registry) (task_id name : String)
    (artifacts : Option Artifacts) (now : ℚ) : Registry × WorkflowTask :=
  let task : WorkflowTask :=
    { task_id := task_id, name := name, created_at := now, updated_at := now,
      artifacts := artifacts.getD {} }
  (dictSet reg task_id task, task)

/-- `TaskManager.get_task`. -/
def get_task (reg : Registry) (task_id : String) : Option WorkflowTask :=
  dictGet reg task_id

/-- Helper of `sync_subtask_to_file_info`: walk `ai_clips_files` and update the
first file whose expected subtask name matches. `fmt` abstracts
`time.strftime('%Y%m%d_%H%M%S', time.localtime t)`. -/
def syncFiles (fmt : ℚ → String) (subtask_type sub_task_name : String) (sub : SubTask) :
    List FileInfo → List FileInfo
  | [] => []
  | fi :: rest =>
    let expected :=
      subtask_type ++ "_" ++ fi.system_prompt_id ++ "_" ++ fi.user_prompt_id ++ "_"
        ++ fmt fi.created_at
    if sub_task_name = expected then
      { fi with sub_tasks :=
          (dictSet fi.sub_tasks subtask_type
            { status := statusValue sub.status, message := sub.message,
              progress := sub.progress, error := sub.error, outputs := sub.outputs,
              updated_at := sub.updated_at }) } :: rest
    else
      fi :: syncFiles fmt subtask_type sub_task_name sub rest

/-- `TaskManager.sync_subtask_to_file_info`: mirrors a subtask's state into the
matching `artifacts['ai_clips_files']` entry. -/
def sync_subtask_to_file_info (fmt : ℚ → String) (reg : Registry)
    (task_id sub_task_name : String) : Registry :=
  match dictGet reg task_id with
  | none => reg
  | some workflow =>
    match dictGet workflow.sub_tasks sub_task_name with
    | none => reg
    | some sub =>
      let parts := splitUnderscore sub_task_name
      if parts.length < 4 then reg
      else
        let subtask_type := parts.headD ""
        if workflow.artifacts.ai_clips_files = [] then reg
        else
          dictSet reg task_id
            { workflow with artifacts :=
                ({ workflow.artifacts with ai_clips_files :=
                    (syncFiles fmt subtask_type sub_task_name sub
                      workflow.artifacts.ai_clips_files) }) }

/-- Field updates `update_sub_task` applies to the (found or fresh) subtask:
status is always set, the optional fields only when not `None`, a supplied
error forces status Failed, outputs merge key-wise, and the update stamp is
refreshed. -/
def appliedSub (sub0 : SubTask) (status : TaskStatus) (message : Option String)
    (progress : Option ℚ) (outputs : Option (List (String × Val)))
    (error : Option String) (now : ℚ) : SubTask :=
  let s1 := { sub0 with status := status }
  let s2 := match message with
    | some m => { s1 with message := m }
    | none => s1
  let s3 := match progress with
    | some p => { s2 with progress := p }
    | none => s2
  let s4 := match outputs with
    | some o => { s3 with outputs := dictUpdate s3.outputs o }
    | none => s3
  let s5 := match error with
    | some e => { s4 with error := some e, status := TaskStatus.failed }
    | none => s4
  { s5 with updated_at := now }

/-- The subtask `update_sub_task` operates on: the stored one, or a fresh one
of the given kind (`SubTask(type=sub_task_type)`, stamped at creation time). -/
def priorSub (wf : WorkflowTask) (sub_task_name sub_task_type : String) (now : ℚ) : SubTask :=
  match dictGet wf.sub_tasks sub_task_name with
  | some s => s
  | none => { type := sub_task_type, updated_at := now }

/-- The workflow value produced by `update_sub_task`'s in-lock body: subtask
upserted via `appliedSub`, parent stamp refreshed, and the Pending → Running
promotion when the passed status is Running. -/
def updatedWorkflow (wf : WorkflowTask) (sub_task_name sub_task_type : String)
    (status : TaskStatus) (message : Option String) (progress : Option ℚ)
    (outputs : Option (List (String × Val))) (error : Option String) (now : ℚ) :
    WorkflowTask :=
  let s6 := appliedSub (priorSub wf sub_task_name sub_task_type now) status message
    progress outputs error now
  let wf1 := { wf with
    sub_tasks := dictSet wf.sub_tasks sub_task_name s6, updated_at := now }
  if status = TaskStatus.running ∧ wf1.status = TaskStatus.pending then
    { wf1 with
      status := TaskStatus.running
      message := "Выполняется подзадача: " ++ sub_task_name }
  else wf1

/-- `TaskManager.update_sub_task`: idempotent upsert of a subtask, followed by
the mirror sync into `ai_clips_files`. The optional parameters model the
Python `None` defaults tested with `is not None`. -/
def update_sub_task (fmt : ℚ → String) (reg : Registry)
    (task_id sub_task_name sub_task_type : String) (status : TaskStatus)
    (message : Option String) (progress : Option ℚ)
    (outputs : Option (List (String × Val))) (error : Option String) (now : ℚ) :
    Registry :=
  match dictGet reg task_id with
  | none => reg
  | some workflow =>
    sync_subtask_to_file_info fmt
      (dictSet reg task_id
        (updatedWorkflow workflow sub_task_name sub_task_type status message progress
          outputs error now))
      task_id sub_task_name

/-- `TaskManager.update_workflow_artifacts`; the artifacts dictionary being a
structure here, the caller's update dictionary becomes the field update `f`. -/
def update_workflow_artifacts (reg : Registry) (task_id : String)
    (f : Artifacts → Artifacts) (now : ℚ) : Registry :=
  match dictGet reg task_id with
  | none => reg
  | some workflow =>
    dictSet reg task_id { workflow with artifacts := f workflow.artifacts, updated_at := now }

/-- Wire form of a SubTask, as produced by `SubTask.to_dict`. -/
structure SubRecord where
  type : String
  status : String
  message : String
  progress : ℚ
  updated_at : ℚ
  outputs : List (String × Val)
  error : Option String
deriving DecidableEq, Repr

/-- Wire form of a workflow, as produced by `WorkflowTask.to_dict`. An
old-format record on disk may lack the `sub_tasks` key, hence the `Option`. -/
structure TaskRecord where
  task_id : String
  name : String
  status : String
  message : String
  error : Option String
  created_at : ℚ
  updated_at : ℚ
  artifacts : Artifacts
  sub_tasks : Option (List (String × SubRecord))
deriving DecidableEq, Repr

/-- `SubTask.to_dict`. -/
def SubTask.to_dict (s : SubTask) : SubRecord :=
  { type := s.type, status := statusValue s.status, message := s.message,
    progress := s.progress, updated_at := s.updated_at, outputs := s.outputs,
    error := s.error }

/-- `WorkflowTask.to_dict`. -/
def WorkflowTask.to_dict (w : WorkflowTask) : TaskRecord :=
  { task_id := w.task_id, name := w.name, status := statusValue w.status,
    message := w.message, error := w.error, created_at := w.created_at,
    updated_at := w.updated_at, artifacts := w.artifacts,
    sub_tasks := some (w.sub_tasks.map fun p => (p.1, p.2.to_dict)) }

/-- `TaskManager.save_tasks_to_disk`: the snapshot written to the state file. -/
def save_tasks_to_disk (reg : Registry) : List (String × TaskRecord) :=
  reg.map fun p => (p.1, p.2.to_dict)

/-- Parse one persisted SubTask; `TaskStatus(sub_data['status'])` may raise. -/
def parseSubRecord (r : SubRecord) : Option SubTask :=
  (statusOfString r.status).map fun st =>
    { type := r.type, status := st, message := r.message, progress := r.progress,
      updated_at := r.updated_at, outputs := r.outputs, error := r.error }

/-- Parse the `sub_tasks` dictionary of a persisted workflow. -/
def parseSubRecords : List (String × SubRecord) → Option (List (String × SubTask))
  | [] => some []
  | (n, r) :: rest =>
    match parseSubRecord r, parseSubRecords rest with
    | some s, some l => some ((n, s) :: l)
    | _, _ => none

/-- Outcome of processing one persisted record during load: skipped (old
format), aborted (a raised `ValueError` stops the loop, keeping what was
loaded so far), or a reconstructed workflow to add. -/
inductive LoadStep
  | skip
  | abort
  | add (wf : WorkflowTask)
deriving DecidableEq, Repr

/-- Per-record body of `load_tasks_from_disk`: an old-format record (no
`sub_tasks` key) is skipped with a log line; a workflow persisted with status
`"running"` is forced to `"failed"` with an explicit restart error before
parsing; an unparsable status raises. -/
def loadRecord (rec : TaskRecord) : LoadStep :=
  match rec.sub_tasks with
  | none => LoadStep.skip
  | some subRecs =>
    let status1 := if rec.status = "running" then "failed" else rec.status
    let error1 : Option String :=
      if rec.status = "running" then some "Процесс был прерван перезапуском сервера."
      else rec.error
    match parseSubRecords subRecs, statusOfString status1 with
    | some subs, some st =>
      LoadStep.add
        { task_id := rec.task_id, name := rec.name, status := st,
          message := rec.message, error := error1, created_at := rec.created_at,
          updated_at := rec.updated_at, artifacts := rec.artifacts, sub_tasks := subs }
    | _, _ => LoadStep.abort

/-- `TaskManager.load_tasks_from_disk`, folded over the snapshot's records.
The surrounding `except` of the source keeps, on a raise, only the workflows
loaded so far. -/
def load_tasks_from_disk : List (String × TaskRecord) → Registry → Registry
  | [], reg => reg
  | (task_id, rec) :: rest, reg =>
    match loadRecord rec with
    | LoadStep.skip => load_tasks_from_disk rest reg
    | LoadStep.abort => reg
    | LoadStep.add wf => load_tasks_from_disk rest (dictSet reg task_id wf)

/-- Observation helper: the subtask stored under a workflow and name. -/
def subTaskOf (reg : Registry) (tid sname : String) : Option SubTask :=
  (dictGet reg tid).bind fun w => dictGet w.sub_tasks sname

/-- Observation helper: a stored subtask's status. -/
def subStatusOf (reg : Registry) (tid sname : String) : Option TaskStatus :=
  (subTaskOf reg tid sname).map (·.status)

/-- Observation helper: a stored workflow's status. -/
def wfStatusOf (reg : Registry) (tid : String) : Option TaskStatus :=
  (dictGet reg tid).map (·.status)

/-! ## `calculate_progress` (`web/routes/simple_api.py`) -/

/-- Contribution of one stage's (optional) subtask to the weighted progress
total: full weight when completed, `progress * weight / 100` when running,
nothing otherwise. -/
def contrib (w : ℚ) (s : Option SubTask) : ℚ :=
  match s with
  | none => 0
  | some st =>
    if st.status = TaskStatus.completed then w
    else if st.status = TaskStatus.running then st.progress * w / 100
    else 0

/-- Whether an optional subtask is present and completed (`s and s.status ==
TaskStatus.COMPLETED`). -/
def isCompletedO (s : Option SubTask) : Bool :=
  match s with
  | some st => decide (st.status = TaskStatus.completed)
  | none => false

/-- First subtask whose name starts with `clipping_` (`clipping_tasks[0]`). -/
def clippingHead (sub_tasks : List (String × SubTask)) : Option SubTask :=
  ((sub_tasks.filter fun p => strHasLead p.1 "clipping_").head?).map Prod.snd

/-- First subtask whose name starts with `shorts_creation_`. -/
def shortsHead (sub_tasks : List (String × SubTask)) : Option SubTask :=
  ((sub_tasks.filter fun p => strHasLead p.1 "shorts_creation_").head?).map Prod.snd

/-- The `total_progress` accumulator of `calculate_progress`. -/
def cpTotal (sub_tasks : List (String × SubTask)) : ℚ :=
  contrib 20 (dictGet sub_tasks "initial_processing")
    + contrib 10 (dictGet sub_tasks "transcription")
    + contrib 20 (dictGet sub_tasks "ai_clip_generation")
    + contrib 20 (clippingHead sub_tasks)
    + contrib 30 (shortsHead sub_tasks)

/-- The `current_weight` accumulator of `calculate_progress`: a stage counts
when its subtask exists, or (having not started) when its predecessor stage
completed. -/
def cpWeight (sub_tasks : List (String × SubTask)) : ℚ :=
  (if (dictGet sub_tasks "initial_processing").isSome then 20 else 0)
    + (if (dictGet sub_tasks "transcription").isSome then 10
       else if isCompletedO (dictGet sub_tasks "initial_processing") then 10 else 0)
    + (if (dictGet sub_tasks "ai_clip_generation").isSome then 20
       else if isCompletedO (dictGet sub_tasks "transcription") then 20 else 0)
    + (if (clippingHead sub_tasks).isSome then 20
       else if isCompletedO (dictGet sub_tasks "ai_clip_generation") then 20 else 0)
    + (if (shortsHead sub_tasks).isSome then 30
       else if isCompletedO (clippingHead sub_tasks) then 30 else 0)

/-- `calculate_progress`: weighted aggregate progress of a workflow, normalized
by the weight-mass of stages that are present or whose predecessor completed,
clamped to 100. -/
def calculate_progress (workflow : WorkflowTask) : ℚ :=
  if workflow.sub_tasks = [] then 0
  else if 0 < cpWeight workflow.sub_tasks then
    min 100 (cpTotal workflow.sub_tasks / cpWeight workflow.sub_tasks * 100)
  else 0

/-! ## The automaton `auto_continue_workflow` (`web/routes/simple_api.py`) -/

/-- A stage launch performed by the automaton: the synchronous
`_generate_ai_clips_direct` call, or spawning `start_clipping_task` or
`start_shorts_creation_task`. -/
inductive Launch
  | aiGeneration
  | clipping
  | shortsCreation
deriving DecidableEq, Repr

/-- `generate_subtask_name` from `web/routes/tasks_api.py`; `fmt` abstracts
`time.strftime('%Y%m%d_%H%M%S', time.localtime t)` on the numeric
`created_at`. -/
def generate_subtask_name (fmt : ℚ → String) (fi : FileInfo) (subtask_type : String) : String :=
  subtask_type ++ "_" ++ fi.system_prompt_id ++ "_" ++ fi.user_prompt_id ++ "_"
    ++ fmt fi.created_at

/-- A clip entry handed to the clipper (`finish` stands for the reserved word
`end`). -/
structure ClipEntry where
  start : ℚ
  finish : ℚ
  title : String
  caption : String
  type : String
deriving DecidableEq, Repr

/-- Conversion of raw AI clips to clipper entries: clips without truthy start
and end time markers are skipped with a warning. -/
def convertClips : List RawClip → List ClipEntry
  | [] => []
  | c :: rest =>
    let s := c.start_time.getD 0
    let e := c.end_time.getD 0
    if s = 0 ∨ e = 0 then convertClips rest
    else
      { start := s, finish := e, title := c.title, caption := c.summary,
        type := "ai_clip" } :: convertClips rest

/-- Environment abstracting the filesystem and external services seen by the
automaton: which paths exist, how an AI clips JSON file parses (`none` models
a read or JSON error), whether the in-process AI generation succeeds together
with the artifacts it produces, the duration probe of the video file (`none`
models a `VideoFileClip` exception), and the local-time name formatter. -/
structure Env where
  fileExists : String → Bool
  clipsData : String → Option (List RawClip)
  aiSucceeds : Bool
  aiClips : List RawClip
  aiSavePath : String
  videoDurationProbe : Option ℚ
  fmt : ℚ → String

/-- First entry of `ai_clips_files` whose prompt ids match, with its index. -/
def findFileInfo (files : List FileInfo) (sp up : String) : Option (Nat × FileInfo) :=
  match files with
  | [] => none
  | fi :: rest =>
    if fi.system_prompt_id = sp ∧ fi.user_prompt_id = up then some (0, fi)
    else (findFileInfo rest sp up).map fun p => (p.1 + 1, p.2)

/-- Python `l[i] = v`. -/
def listSet {α : Type} : List α → Nat → α → List α
  | [], _, _ => []
  | _ :: rest, 0, v => v :: rest
  | x :: rest, n + 1, v => x :: listSet rest n v

/-- Video-duration probe step of `_generate_ai_clips_direct`: when the cached
duration is missing (falsy) and the video file can be opened, the probed
duration is cached into the artifacts; a probe failure (or missing video) only
falls back to a local default and caches nothing. -/
def gacdProbe (env : Env) (workflow : WorkflowTask) (reg : Registry) (task_id : String)
    (now : ℚ) : Registry :=
  if workflow.artifacts.video_duration.getD 0 = 0 then
    match workflow.artifacts.video_path with
    | some vp =>
      if vp ≠ "" ∧ env.fileExists vp = true then
        match env.videoDurationProbe with
        | some d =>
          update_workflow_artifacts reg task_id
            (fun a => { a with video_duration := some d }) now
        | none => reg
      else reg
    | none => reg
  else reg

/-- Success tail of `_generate_ai_clips_direct`: store the clip metadata
artifact, prepend the new ai-clips file record, and mark the subtask
Completed with the file path in its outputs. -/
def gacdFinish (env : Env) (reg : Registry) (task_id sp up : String) (now : ℚ) : Registry :=
  let regC := update_workflow_artifacts reg task_id
    (fun a => { a with ai_metadata := some env.aiClips }) now
  let file_info : FileInfo :=
    { path := env.aiSavePath, system_prompt_id := sp, user_prompt_id := up,
      created_at := now, sub_tasks := [] }
  let regD := update_workflow_artifacts regC task_id
    (fun a => { a with ai_clips_files := file_info :: a.ai_clips_files }) now
  update_sub_task env.fmt regD task_id "ai_clip_generation" "ai_clip_generation"
    TaskStatus.completed (some ("Файл с AI нарезкой создан: " ++ env.aiSavePath)) none
    (some [("ai_clips_file", Val.str env.aiSavePath)]) none now

/-- `_generate_ai_clips_direct`: synchronous AI clip generation. Returns the
updated registry and whether the call completed without raising (`false`
models an exception escaping to the caller's `except`; mutations made before
the raise are kept, as in Python). -/
def generate_ai_clips_direct (env : Env) (reg : Registry) (task_id sp up : String)
    (now : ℚ) : Registry × Bool :=
  match dictGet reg task_id with
  | none => (reg, false)
  | some workflow =>
    match workflow.artifacts.transcription_simple_path with
    | none => (reg, false)
    | some tp =>
      if tp = "" then (reg, false)
      else
        let regA := update_sub_task env.fmt reg task_id "ai_clip_generation"
          "ai_clip_generation" TaskStatus.running (some "Генерация AI нарезки...")
          none none none now
        if env.fileExists tp = false then (regA, false)
        else
          let regB := gacdProbe env workflow regA task_id now
          if env.aiSucceeds = false then (regB, false)
          else (gacdFinish env regB task_id sp up now, true)

/-- Stage 3 of the automaton (clipping completed → launch Shorts creation).
`workflow` is the Python binding in scope at that point (entry snapshot, or
the re-fetched workflow after a clipping launch). The launched worker thread's
first status update is applied synchronously. -/
def acwStage3 (env : Env) (reg : Registry) (workflow : WorkflowTask) (task_id : String)
    (now : ℚ) : Registry × Bool × List Launch :=
  let sub_tasks := workflow.sub_tasks
  match sub_tasks.filter fun p => strHasLead p.1 "clipping_" with
  | [] => (reg, false, [])
  | (clipping_name, clipping_task) :: _ =>
    if clipping_task.status ≠ TaskStatus.completed then (reg, false, [])
    else if (sub_tasks.filter fun p => strHasLead p.1 "shorts_creation_") ≠ [] then
      (reg, false, [])
    else if clipping_task.outputs = [] then (reg, false, [])
    else
      let clips_paths : List String :=
        match dictGet clipping_task.outputs "clips" with
        | some (Val.strList l) => l
        | _ => []
      if clips_paths = [] then (reg, false, [])
      else
        let existing_clips := clips_paths.filter env.fileExists
        if existing_clips = [] then (reg, false, [])
        else
          let parts := splitUnderscore clipping_name
          let found0 : Option (Nat × FileInfo) :=
            if 4 ≤ parts.length then
              findFileInfo workflow.artifacts.ai_clips_files (parts.getD 1 "")
                (parts.getD 2 "")
            else none
          let found : Option (Nat × FileInfo) :=
            match found0 with
            | some x => some x
            | none =>
              match workflow.artifacts.ai_clips_files with
              | [] => none
              | fi :: _ => some (0, fi)
          match found with
          | none =>
            let regL := update_sub_task env.fmt reg task_id "shorts_creation"
              "shorts_creation" TaskStatus.running (some "Начало создания Shorts")
              (some 0) none none now
            (regL, true, [Launch.shortsCreation])
          | some (idx, fi) =>
            let uname := generate_subtask_name env.fmt fi "shorts_creation"
            let fi2 := { fi with sub_tasks :=
                (dictSet fi.sub_tasks "shorts_creation"
                  { status := "running", message := "Начало создания Shorts",
                    progress := 0, error := none, outputs := [], updated_at := now }) }
            let regM := update_workflow_artifacts reg task_id
              (fun a => { a with ai_clips_files := listSet a.ai_clips_files idx fi2 }) now
            let regL := update_sub_task env.fmt regM task_id uname "shorts_creation"
              TaskStatus.running (some "Начало создания Shorts") (some 0) none none now
            (regL, true, [Launch.shortsCreation])

/-- Stage 2 of the automaton (AI generation completed → launch clipping),
falling through to stage 3 as the source does. -/
def acwStage2 (env : Env) (reg : Registry) (workflow : WorkflowTask) (task_id : String)
    (now : ℚ) : Registry × Bool × List Launch :=
  let sub_tasks := workflow.sub_tasks
  let ai_generation := dictGet sub_tasks "ai_clip_generation"
  if (ai_generation.map (·.status)) = some TaskStatus.completed then
    match sub_tasks.filter fun p => strHasLead p.1 "clipping_" with
    | _ :: _ => acwStage3 env reg workflow task_id now
    | [] =>
      match workflow.artifacts.ai_clips_files with
      | [] => (reg, false, [])
      | file_info :: _ =>
        if env.fileExists file_info.path = false then (reg, false, [])
        else
          match env.clipsData file_info.path with
          | none => (reg, false, [])
          | some raw =>
            let clips_for_clipper := convertClips raw
            if clips_for_clipper = [] then (reg, false, [])
            else
              match workflow.artifacts.video_path with
              | none => (reg, false, [])
              | some vp =>
                if vp = "" then (reg, false, [])
                else if env.fileExists vp = false then (reg, false, [])
                else
                  let uname := generate_subtask_name env.fmt file_info "clipping"
                  let fi2 := { file_info with sub_tasks :=
                      (dictSet file_info.sub_tasks "clipping"
                        { status := "running", message := "Начало нарезки клипов",
                          progress := 0, error := none, outputs := [],
                          updated_at := now }) }
                  let regM := update_workflow_artifacts reg task_id
                    (fun a => { a with ai_clips_files := listSet a.ai_clips_files 0 fi2 })
                    now
                  let regL := update_sub_task env.fmt regM task_id uname "clipping"
                    TaskStatus.running (some "Начало нарезки клипов") (some 0) none none now
                  let workflow2 := (dictGet regL task_id).getD workflow
                  let r3 := acwStage3 env regL workflow2 task_id (now + 1/2)
                  (r3.1, r3.2.1, Launch.clipping :: r3.2.2)
  else acwStage3 env reg workflow task_id now

/-- One invocation of `auto_continue_workflow`. `fuel` bounds the depth of the
explicit tail recursion (the Python call stack); the literal one-second sleep
before recursing advances `now`. Returns the final registry, the boolean
result, and the stage launches performed. -/
def auto_continue_workflow (env : Env) :
    Nat → Registry → String → Bool → ℚ → Registry × Bool × List Launch
  | 0, reg, _, _, _ => (reg, false, [])
  | fuel + 1, reg, task_id, force_check, now =>
    match dictGet reg task_id with
    | none => (reg, false, [])
    | some workflow =>
      if workflow.artifacts.auto_mode = false then (reg, false, [])
      else if force_check = false ∧ now - workflow.artifacts.last_auto_continue < 1 then
        (reg, false, [])
      else
        let reg1 := update_workflow_artifacts reg task_id
          (fun a => { a with last_auto_continue := now }) now
        if workflow.artifacts.auto_continue_processing then (reg1, false, [])
        else
          let reg2 := update_workflow_artifacts reg1 task_id
            (fun a => { a with auto_continue_processing := true }) now
          let body : Registry × Bool × List Launch :=
            let sub_tasks := workflow.sub_tasks
            let initial_processing := dictGet sub_tasks "initial_processing"
            let transcription := dictGet sub_tasks "transcription"
            let ai_generation := dictGet sub_tasks "ai_clip_generation"
            if (initial_processing.map (·.status)) = some TaskStatus.completed ∧
                (transcription.map (·.status)) = some TaskStatus.completed ∧
                ai_generation = none then
              match workflow.artifacts.system_prompt_id, workflow.artifacts.user_prompt_id with
              | some sp, some up =>
                if sp = "" ∨ up = "" then (reg2, false, [])
                else
                  match workflow.artifacts.transcription_simple_path with
                  | none => (reg2, false, [])
                  | some tp =>
                    if tp = "" ∨ env.fileExists tp = false then (reg2, false, [])
                    else
                      let g := generate_ai_clips_direct env reg2 task_id sp up now
                      if g.2 then
                        let r := auto_continue_workflow env fuel g.1 task_id true (now + 1)
                        (r.1, r.2.1, Launch.aiGeneration :: r.2.2)
                      else (g.1, false, [Launch.aiGeneration])
              | none, _ => (reg2, false, [])
              | some _, none => (reg2, false, [])
            else acwStage2 env reg2 workflow task_id now
          let reg4 := update_workflow_artifacts body.1 task_id
            (fun a => { a with auto_continue_processing := false }) now
          (reg4, body.2.1, body.2.2)

/-! ## Derived notions used in claim statements and proofs -/

/-- The `clipping_`-prefixed subtask family of a workflow. -/
def clippingFam (st : List (String × SubTask)) : List (String × SubTask) :=
  st.filter fun p => strHasLead p.1 "clipping_"

/-- The `shorts_creation_`-prefixed subtask family of a workflow. -/
def shortsFam (st : List (String × SubTask)) : List (String × SubTask) :=
  st.filter fun p => strHasLead p.1 "shorts_creation_"

/-- Projection of a workflow to everything except the artifacts fields the
mirror-sync code may touch; used to state what operations leave unchanged. -/
def coreView (w : WorkflowTask) :
    TaskStatus × String × Option String × List (String × SubTask) × Bool × ℚ × Bool :=
  (w.status, w.message, w.error, w.sub_tasks, w.artifacts.auto_mode,
   w.artifacts.last_auto_continue, w.artifacts.auto_continue_processing)

/-- The transformation `load_tasks_from_disk` applies to a saved workflow:
running becomes failed with an explicit restart error, everything else is
loaded back unchanged. -/
def loadTransform (wf : WorkflowTask) : WorkflowTask :=
  if wf.status = TaskStatus.running then
    { wf with
      status := TaskStatus.failed
      error := some "Процесс был прерван перезапуском сервера." }
  else wf

/-- One recorded `update_sub_task` call on a fixed (workflow, subTaskName). -/
structure UpdateCall where
  stype : String
  status : TaskStatus
  message : Option String := none
  progress : Option ℚ := none
  outputs : Option (List (String × Val)) := none
  error : Option String := none
  at_time : ℚ := 0

/-- Replay a sequence of `update_sub_task` calls on one (workflow, name). -/
def applyCalls (fmt : ℚ → String) (tid sn : String) : Registry → List UpdateCall → Registry
  | reg, [] => reg
  | reg, c :: rest =>
    applyCalls fmt tid sn
      (update_sub_task fmt reg tid sn c.stype c.status c.message c.progress c.outputs
        c.error c.at_time) rest

/-- Whether a call's outputs dictionary mentions the key `k`. -/
def callMentions (c : UpdateCall) (k : String) : Bool :=
  match c.outputs with
  | none => false
  | some o => (dictGet o k).isSome

/-- Pointwise order on subtasks: same status, non-decreasing progress. -/
def subLE (s s' : SubTask) : Prop :=
  s.status = s'.status ∧ s.progress ≤ s'.progress

/-- Lift of `subLE` to optional subtasks. -/
def optSubLE : Option SubTask → Option SubTask → Prop
  | none, none => True
  | some s, some s' => subLE s s'
  | _, _ => False

/-- Control artifacts of a stored workflow: the auto-mode switch, the last
automaton invocation stamp, and the mutual exclusion flag. -/
def ctlOf (reg : Registry) (tid : String) : Option (Bool × ℚ × Bool) :=
  (dictGet reg tid).map fun w =>
    (w.artifacts.auto_mode, w.artifacts.last_auto_continue,
      w.artifacts.auto_continue_processing)

/-- The stored subtask dictionary of a workflow. -/
def subTasksOf (reg : Registry) (tid : String) : Option (List (String × SubTask)) :=
  (dictGet reg tid).map (·.sub_tasks)

/-- Executable pointwise comparison of two subtask dictionaries: same names in
the same order, same statuses, progress non-decreasing. -/
def entriesLE : List (String × SubTask) → List (String × SubTask) → Bool
  | [], [] => true
  | (n, s) :: rest, (n', s') :: rest' =>
    decide (n = n') && decide (s.status = s'.status) && decide (s.progress ≤ s'.progress)
      && entriesLE rest rest'
  | _, _ => false

/-! ## Concrete fixtures used by counterexamples and witnesses -/

/-- A fixed local-time formatter for concrete runs. -/
def fmt0 : ℚ → String := fun _ => "20240101_000000"

/-- Benign environment: every path exists, AI succeeds, clips parse. -/
def envOk : Env :=
  { fileExists := fun _ => true
    clipsData := fun _ => some [{ start_time := some 1, end_time := some 2 }]
    aiSucceeds := true
    aiClips := [{ start_time := some 1, end_time := some 2 }]
    aiSavePath := "p"
    videoDurationProbe := some 100
    fmt := fmt0 }

/-- Auto-mode workflow ready for the AI-analysis stage. -/
def wfReady : WorkflowTask :=
  { task_id := "w", name := "n"
    status := .running
    artifacts :=
      { auto_mode := true, system_prompt_id := some "sp", user_prompt_id := some "up"
        transcription_simple_path := some "t", video_path := some "v" }
    sub_tasks :=
      [("initial_processing", { type := "initial_processing", status := .completed }),
       ("transcription", { type := "transcription", status := .completed })] }

/-- Registry holding `wfReady`. -/
def regReady : Registry := [("w", wfReady)]

/-- Like `wfReady` but with a recent automaton invocation stamp, placing a
call at time 10 inside the debounce window. -/
def wfDeb : WorkflowTask :=
  { wfReady with artifacts := { wfReady.artifacts with last_auto_continue := 19 / 2 } }

/-- Registry holding `wfDeb`. -/
def regDeb : Registry := [("w", wfDeb)]

/-- Pending workflow with a running subtask, for the C1 counterexample. -/
def wfC1 : WorkflowTask :=
  { task_id := "w", name := "n", status := .pending
    sub_tasks := [("s", { type := "t", status := .running })] }

/-- Running workflow with a running subtask, for the C2 counterexample. -/
def wfC2 : WorkflowTask :=
  { task_id := "w", name := "n", status := .running
    sub_tasks := [("s", { type := "t", status := .running })] }

/-- Workflow snapshot registry for the C2 witness. -/
def regC2w : Registry :=
  [("a", { task_id := "a", name := "na", status := .running }),
   ("b", { task_id := "b", name := "nb", status := .completed })]

/-- Stage-ordered update chain for C6: create, run and complete
`initial_processing`, then run, raise and complete `transcription`. -/
def regP0 : Registry := (create_workflow [] "w" "n" none 0).1

/-- After creating `initial_processing` running at progress 0. -/
def regP1 : Registry :=
  update_sub_task fmt0 regP0 "w" "initial_processing" "initial_processing"
    .running none (some 0) none none 1

/-- After completing `initial_processing`. -/
def regP2 : Registry :=
  update_sub_task fmt0 regP1 "w" "initial_processing" "initial_processing"
    .completed none none none none 2

/-- After creating `transcription` running at progress 0. -/
def regP3 : Registry :=
  update_sub_task fmt0 regP2 "w" "transcription" "transcription"
    .running none (some 0) none none 3

/-- After raising `transcription` progress to 50. -/
def regP4 : Registry :=
  update_sub_task fmt0 regP3 "w" "transcription" "transcription"
    .running none (some 50) none none 4

/-- After completing `transcription`. -/
def regP5 : Registry :=
  update_sub_task fmt0 regP4 "w" "transcription" "transcription"
    .completed none none none none 5

/-- Fixed-status workflow, transcription running at progress 0. -/
def wfM1 : WorkflowTask :=
  { task_id := "w", name := "n"
    sub_tasks :=
      [("initial_processing", { type := "initial_processing", status := .completed }),
       ("transcription", { type := "transcription", status := .running, progress := 0 })] }

/-- Same as `wfM1` with transcription progress raised to 50. -/
def wfM2 : WorkflowTask :=
  { task_id := "w", name := "n"
    sub_tasks :=
      [("initial_processing", { type := "initial_processing", status := .completed }),
       ("transcription", { type := "transcription", status := .running, progress := 50 })] }

/-- Existing workflow with history, for the C7 counterexample. -/
def wfC7 : WorkflowTask :=
  { task_id := "w", name := "old", created_at := 5, updated_at := 6
    artifacts := { auto_mode := true }
    sub_tasks := [("s", { type := "t", status := .completed })] }

/-- Workflow with a subtask carrying outputs, for the C8 witness. -/
def wfC8 : WorkflowTask :=
  { task_id := "w", name := "n"
    sub_tasks := [("s", { type := "t", status := .running, message := "m", progress := 7,
                          outputs := [("k", Val.str "v")], error := none })] }

/-- Workflow with a failed subtask, for the C9 witness. -/
def wfC9 : WorkflowTask :=
  { task_id := "w", name := "n"
    sub_tasks := [("s", { type := "t", status := .failed, error := some "old" })] }

/-- A well-formed persisted record, for the C10 witness. -/
def recC10a : TaskRecord :=
  { task_id := "a", name := "na", status := "completed", message := "", error := none
    created_at := 0, updated_at := 0, artifacts := {}
    sub_tasks := some [("s", { type := "t", status := "completed", message := ""
                               , progress := 100, updated_at := 0, outputs := []
                               , error := none })] }

/-- An old-format persisted record without `sub_tasks`, for the C10 witness. -/
def recC10old : TaskRecord :=
  { task_id := "old", name := "no", status := "running", message := "", error := none
    created_at := 0, updated_at := 0, artifacts := {}, sub_tasks := none }

/-! ## Dictionary lemmas -/

theorem dictGet_dictSet {α : Type} (d : List (String × α)) (k k' : String) (v : α) :
    dictGet (dictSet d k v) k' = if k = k' then some v else dictGet d k' := by
  induction d with
  | nil => by_cases h : k = k' <;> simp [dictSet, dictGet, h]
  | cons p rest ih =>
    obtain ⟨k0, v0⟩ := p
    by_cases h0 : k0 = k
    · subst h0
      by_cases h1 : k0 = k' <;> simp [dictSet, dictGet, h1]
    · by_cases h1 : k0 = k'
      · subst h1
        have hk : ¬ k = k0 := fun h => h0 h.symm
        simp [dictSet, dictGet, h0, hk]
      · simp [dictSet, dictGet, h0, h1, ih]

theorem dictGet_dictSet_self {α : Type} (d : List (String × α)) (k : String) (v : α) :
    dictGet (dictSet d k v) k = some v := by
  simp [dictGet_dictSet]

theorem dictGet_append {α : Type} (a b : List (String × α)) (k : String) :
    dictGet (a ++ b) k = ((dictGet a k).rec (dictGet b k) fun v => some v : Option α) := by
  induction a with
  | nil => simp [dictGet]
  | cons p rest ih =>
    obtain ⟨k0, v0⟩ := p
    by_cases h : k0 = k <;> simp [dictGet, h, ih]

theorem dictSet_of_get_none {α : Type} (d : List (String × α)) (k : String) (v : α)
    (h : dictGet d k = none) : dictSet d k v = d ++ [(k, v)] := by
  induction d with
  | nil => rfl
  | cons p rest ih =>
    obtain ⟨k0, v0⟩ := p
    by_cases h0 : k0 = k
    · simp [dictGet, h0] at h
    · simp only [dictGet, if_neg h0] at h
      simp [dictSet, h0, ih h]

theorem dictGet_dictUpdate_none {α : Type} (o d : List (String × α)) (k : String)
    (h : dictGet o k = none) : dictGet (dictUpdate d o) k = dictGet d k := by
  induction o generalizing d with
  | nil => rfl
  | cons p rest ih =>
    obtain ⟨k0, v0⟩ := p
    by_cases h0 : k0 = k
    · simp [dictGet, h0] at h
    · simp only [dictGet, if_neg h0] at h
      show dictGet (dictUpdate (dictSet d k0 v0) rest) k = dictGet d k
      rw [ih (dictSet d k0 v0) h, dictGet_dictSet, if_neg h0]

/-! ## Lemmas about `appliedSub` and `sync_subtask_to_file_info` -/

theorem appliedSub_all_none (s : SubTask) (st : TaskStatus) (now : ℚ) :
    appliedSub s st none none none none now = { s with status := st, updated_at := now } := rfl

theorem appliedSub_error_some (s : SubTask) (st : TaskStatus) (m : Option String)
    (p : Option ℚ) (o : Option (List (String × Val))) (e : String) (now : ℚ) :
    (appliedSub s st m p o (some e) now).status = TaskStatus.failed ∧
      (appliedSub s st m p o (some e) now).error = some e := by
  cases m <;> cases p <;> cases o <;> simp [appliedSub]

theorem appliedSub_error_none_status (s : SubTask) (st : TaskStatus) (m : Option String)
    (p : Option ℚ) (o : Option (List (String × Val))) (now : ℚ) :
    (appliedSub s st m p o none now).status = st := by
  cases m <;> cases p <;> cases o <;> simp [appliedSub]

theorem appliedSub_outputs (s : SubTask) (st : TaskStatus) (m : Option String)
    (p : Option ℚ) (o : Option (List (String × Val))) (e : Option String) (now : ℚ) :
    (appliedSub s st m p o e now).outputs =
      (o.rec s.outputs fun o' => dictUpdate s.outputs o' : List (String × Val)) := by
  cases m <;> cases p <;> cases o <;> cases e <;> simp [appliedSub]

theorem sync_cases (fmt : ℚ → String) (reg : Registry) (tid sn : String) :
    sync_subtask_to_file_info fmt reg tid sn = reg ∨
      ∃ wf fis, dictGet reg tid = some wf ∧
        sync_subtask_to_file_info fmt reg tid sn
          = dictSet reg tid
              { wf with artifacts := ({ wf.artifacts with ai_clips_files := fis }) } := by
  cases hw : dictGet reg tid with
  | none => exact Or.inl (by simp [sync_subtask_to_file_info, hw])
  | some wf =>
    cases hs : dictGet wf.sub_tasks sn with
    | none => exact Or.inl (by simp [sync_subtask_to_file_info, hw, hs])
    | some sub =>
      by_cases hp : (splitUnderscore sn).length < 4
      · exact Or.inl (by simp [sync_subtask_to_file_info, hw, hs, hp])
      · by_cases hf : wf.artifacts.ai_clips_files = []
        · exact Or.inl (by simp [sync_subtask_to_file_info, hw, hs, hp, hf])
        · refine Or.inr ⟨wf,
            syncFiles fmt ((splitUnderscore sn).headD "") sn sub wf.artifacts.ai_clips_files,
            rfl, ?_⟩
          simp [sync_subtask_to_file_info, hw, hs, hp, hf]

theorem sync_coreView (fmt : ℚ → String) (reg : Registry) (tid sn tid' : String) :
    (dictGet (sync_subtask_to_file_info fmt reg tid sn) tid').map coreView
      = (dictGet reg tid').map coreView := by
  rcases sync_cases fmt reg tid sn with h | ⟨wf, fis, hw, h⟩
  · rw [h]
  · rw [h, dictGet_dictSet]
    by_cases ht : tid = tid'
    · subst ht
      rw [if_pos rfl, hw]
      rfl
    · rw [if_neg ht]

theorem updatedWorkflow_sub_tasks (wf : WorkflowTask) (sn sty : String) (st : TaskStatus)
    (msg : Option String) (prog : Option ℚ) (outs : Option (List (String × Val)))
    (err : Option String) (now : ℚ) :
    (updatedWorkflow wf sn sty st msg prog outs err now).sub_tasks
      = dictSet wf.sub_tasks sn
          (appliedSub (priorSub wf sn sty now) st msg prog outs err now) := by
  unfold updatedWorkflow
  by_cases hc : st = TaskStatus.running ∧ wf.status = TaskStatus.pending <;>
    simp [hc]

theorem updatedWorkflow_status (wf : WorkflowTask) (sn sty : String) (st : TaskStatus)
    (msg : Option String) (prog : Option ℚ) (outs : Option (List (String × Val)))
    (err : Option String) (now : ℚ) :
    (updatedWorkflow wf sn sty st msg prog outs err now).status
      = (if st = TaskStatus.running ∧ wf.status = TaskStatus.pending
         then TaskStatus.running else wf.status) := by
  unfold updatedWorkflow
  by_cases hc : st = TaskStatus.running ∧ wf.status = TaskStatus.pending <;>
    simp [hc]

theorem updatedWorkflow_artifacts (wf : WorkflowTask) (sn sty : String) (st : TaskStatus)
    (msg : Option String) (prog : Option ℚ) (outs : Option (List (String × Val)))
    (err : Option String) (now : ℚ) :
    (updatedWorkflow wf sn sty st msg prog outs err now).artifacts = wf.artifacts := by
  unfold updatedWorkflow
  by_cases hc : st = TaskStatus.running ∧ wf.status = TaskStatus.pending <;>
    simp [hc]

theorem update_sub_task_eq (fmt : ℚ → String) (reg : Registry) (tid sn sty : String)
    (st : TaskStatus) (msg : Option String) (prog : Option ℚ)
    (outs : Option (List (String × Val))) (err : Option String) (now : ℚ)
    (wf : WorkflowTask) (hw : dictGet reg tid = some wf) :
    update_sub_task fmt reg tid sn sty st msg prog outs err now
      = sync_subtask_to_file_info fmt
          (dictSet reg tid (updatedWorkflow wf sn sty st msg prog outs err now)) tid sn := by
  unfold update_sub_task
  rw [hw]

theorem update_sub_task_missing (fmt : ℚ → String) (reg : Registry) (tid sn sty : String)
    (st : TaskStatus) (msg : Option String) (prog : Option ℚ)
    (outs : Option (List (String × Val))) (err : Option String) (now : ℚ)
    (hw : dictGet reg tid = none) :
    update_sub_task fmt reg tid sn sty st msg prog outs err now = reg := by
  unfold update_sub_task
  rw [hw]

/-- What `update_sub_task` does when the workflow exists: the subtask becomes
`appliedSub` of its prior (or fresh) value, the workflow status gets at most
the Pending → Running promotion, and the control artifacts are untouched. -/
theorem update_sub_task_found (fmt : ℚ → String) (reg : Registry) (tid sn sty : String)
    (st : TaskStatus) (msg : Option String) (prog : Option ℚ)
    (outs : Option (List (String × Val))) (err : Option String) (now : ℚ)
    (wf : WorkflowTask) (hw : dictGet reg tid = some wf) :
    ∃ wf', dictGet (update_sub_task fmt reg tid sn sty st msg prog outs err now) tid
        = some wf' ∧
      wf'.sub_tasks = dictSet wf.sub_tasks sn
        (appliedSub (priorSub wf sn sty now) st msg prog outs err now) ∧
      wf'.status = (if st = TaskStatus.running ∧ wf.status = TaskStatus.pending
                    then TaskStatus.running else wf.status) ∧
      wf'.artifacts.auto_mode = wf.artifacts.auto_mode ∧
      wf'.artifacts.last_auto_continue = wf.artifacts.last_auto_continue ∧
      wf'.artifacts.auto_continue_processing = wf.artifacts.auto_continue_processing := by
  rw [update_sub_task_eq fmt reg tid sn sty st msg prog outs err now wf hw]
  set wf2 := updatedWorkflow wf sn sty st msg prog outs err now with hwf2
  have hcore := sync_coreView fmt (dictSet reg tid wf2) tid sn tid
  rw [dictGet_dictSet_self] at hcore
  cases hres : dictGet (sync_subtask_to_file_info fmt (dictSet reg tid wf2) tid sn) tid with
  | none =>
    rw [hres] at hcore
    exact absurd hcore (by simp)
  | some wfr =>
    rw [hres] at hcore
    have hcv : coreView wfr = coreView wf2 := by
      simpa using hcore
    have hst : wfr.status = wf2.status := congrArg (fun t => t.1) hcv
    have hsb : wfr.sub_tasks = wf2.sub_tasks := congrArg (fun t => t.2.2.2.1) hcv
    have ham : wfr.artifacts.auto_mode = wf2.artifacts.auto_mode :=
      congrArg (fun t => t.2.2.2.2.1) hcv
    have hla : wfr.artifacts.last_auto_continue = wf2.artifacts.last_auto_continue :=
      congrArg (fun t => t.2.2.2.2.2.1) hcv
    have hpr : wfr.artifacts.auto_continue_processing
        = wf2.artifacts.auto_continue_processing :=
      congrArg (fun t => t.2.2.2.2.2.2) hcv
    refine ⟨wfr, rfl, ?_, ?_, ?_, ?_, ?_⟩
    · rw [hsb, hwf2, updatedWorkflow_sub_tasks]
    · rw [hst, hwf2, updatedWorkflow_status]
    · rw [ham, hwf2, updatedWorkflow_artifacts]
    · rw [hla, hwf2, updatedWorkflow_artifacts]
    · rw [hpr, hwf2, updatedWorkflow_artifacts]

/-! ## Claim C1 -/

/-- C1 counterexample: calling `update_sub_task` with a non-None `error` on the
existing workflow `wfC1` does force the SubTask `s` to Failed, but the parent
workflow's status stays Pending - it does not become Failed as the claim
states. -/
theorem C1_counterexample :
    subStatusOf (update_sub_task fmt0 [("w", wfC1)] "w" "s" "t" TaskStatus.completed
        none none none (some "boom") 3) "w" "s" = some TaskStatus.failed ∧
    wfStatusOf (update_sub_task fmt0 [("w", wfC1)] "w" "s" "t" TaskStatus.completed
        none none none (some "boom") 3) "w" = some TaskStatus.pending ∧
    wfStatusOf (update_sub_task fmt0 [("w", wfC1)] "w" "s" "t" TaskStatus.completed
        none none none (some "boom") 3) "w" ≠ some TaskStatus.failed := by
  decide

/-- C1 (amended): for every `update_sub_task` call with a non-None `error` on an
existing workflow, the named SubTask's status is Failed afterwards (with the
error recorded) regardless of the `status` argument passed alongside; the
parent workflow's status, however, is not set to Failed - it is unchanged
except for the Pending → Running promotion when the `status` argument is
Running. -/
theorem C1_amended (fmt : ℚ → String) (reg : Registry) (tid sn sty : String)
    (st : TaskStatus) (msg : Option String) (prog : Option ℚ)
    (outs : Option (List (String × Val))) (e : String) (now : ℚ) (wf : WorkflowTask)
    (hw : dictGet reg tid = some wf) :
    subStatusOf (update_sub_task fmt reg tid sn sty st msg prog outs (some e) now) tid sn
        = some TaskStatus.failed ∧
    (subTaskOf (update_sub_task fmt reg tid sn sty st msg prog outs (some e) now) tid sn).map
        (·.error) = some (some e) ∧
    wfStatusOf (update_sub_task fmt reg tid sn sty st msg prog outs (some e) now) tid
        = some (if st = TaskStatus.running ∧ wf.status = TaskStatus.pending
                then TaskStatus.running else wf.status) := by
  obtain ⟨wf', hres, hsb, hst, -, -, -⟩ :=
    update_sub_task_found fmt reg tid sn sty st msg prog outs (some e) now wf hw
  have hsubof : subTaskOf (update_sub_task fmt reg tid sn sty st msg prog outs (some e) now)
      tid sn = some (appliedSub (priorSub wf sn sty now) st msg prog outs (some e) now) := by
    unfold subTaskOf
    rw [hres]
    show dictGet wf'.sub_tasks sn = _
    rw [hsb, dictGet_dictSet_self]
  refine ⟨?_, ?_, ?_⟩
  · unfold subStatusOf
    rw [hsubof]
    simp [(appliedSub_error_some (priorSub wf sn sty now) st msg prog outs e now).1]
  · rw [hsubof]
    simp [(appliedSub_error_some (priorSub wf sn sty now) st msg prog outs e now).2]
  · unfold wfStatusOf
    rw [hres]
    simp [hst]

/-- C1 witness: the amended statement evaluated on `wfC1`. -/
theorem C1_witness :
    subStatusOf (update_sub_task fmt0 [("w", wfC1)] "w" "s" "t" TaskStatus.running
        none none none (some "boom") 3) "w" "s" = some TaskStatus.failed ∧
    (subTaskOf (update_sub_task fmt0 [("w", wfC1)] "w" "s" "t" TaskStatus.running
        none none none (some "boom") 3) "w" "s").map (·.error) = some (some "boom") ∧
    wfStatusOf (update_sub_task fmt0 [("w", wfC1)] "w" "s" "t" TaskStatus.running
        none none none (some "boom") 3) "w"
        = some (if TaskStatus.running = TaskStatus.running ∧ wfC1.status = TaskStatus.pending
                then TaskStatus.running else wfC1.status) :=
  C1_amended fmt0 [("w", wfC1)] "w" "s" "t" TaskStatus.running none none none "boom" 3 wfC1
    (by decide)

/-! ## Claim C7 -/

/-- C7 counterexample: `create_workflow` on the occupied id `"w"` does not fail
and does not leave the existing workflow unchanged - the stored workflow is
replaced and its sub-task `s` is gone. -/
theorem C7_counterexample :
    dictGet (create_workflow [("w", wfC7)] "w" "new" none 9).1 "w" ≠ some wfC7 ∧
    subTaskOf [("w", wfC7)] "w" "s" ≠ none ∧
    subTaskOf (create_workflow [("w", wfC7)] "w" "new" none 9).1 "w" "s" = none := by
  decide

/-- C7 (amended): `create_workflow` performs no existence check: it
unconditionally installs a fresh pending workflow under the id (replacing any
workflow already stored there, artifacts, sub-tasks and timestamps included),
and leaves every other registry entry unchanged. -/
theorem C7_create_replaces (reg : Registry) (tid name : String)
    (artifacts : Option Artifacts) (now : ℚ) :
    dictGet (create_workflow reg tid name artifacts now).1 tid
        = some (create_workflow reg tid name artifacts now).2 ∧
    (create_workflow reg tid name artifacts now).2
        = { task_id := tid, name := name, created_at := now, updated_at := now,
            artifacts := artifacts.getD {} } ∧
    ∀ tid', tid' ≠ tid → dictGet (create_workflow reg tid name artifacts now).1 tid'
        = dictGet reg tid' := by
  refine ⟨?_, rfl, ?_⟩
  · show dictGet (dictSet reg tid _) tid = _
    rw [dictGet_dictSet_self]
    rfl
  · intro tid' h
    show dictGet (dictSet reg tid _) tid' = _
    rw [dictGet_dictSet, if_neg (fun hh => h hh.symm)]

/-- C7 witness: the amended statement evaluated on the occupied registry. -/
theorem C7_witness :
    dictGet (create_workflow [("w", wfC7)] "w" "new" none 9).1 "x"
        = dictGet [("w", wfC7)] "x" :=
  (C7_create_replaces [("w", wfC7)] "w" "new" none 9).2.2 "x" (by decide)

/-! ## Claim C9 -/

/-- C9: for every `update_sub_task` call with `error=None` on an existing
SubTask, the SubTask's status after the call equals exactly the status
argument passed - in particular a Failed SubTask moves back to Running or
Completed by a plain update, with no prior `delete_sub_task`. -/
theorem C9_status_follows_argument (fmt : ℚ → String) (reg : Registry)
    (tid sn sty : String) (st : TaskStatus) (msg : Option String) (prog : Option ℚ)
    (outs : Option (List (String × Val))) (now : ℚ) (wf : WorkflowTask) (s : SubTask)
    (hw : dictGet reg tid = some wf) (_hs : dictGet wf.sub_tasks sn = some s) :
    subStatusOf (update_sub_task fmt reg tid sn sty st msg prog outs none now) tid sn
      = some st := by
  obtain ⟨wf', hres, hsb, -, -, -, -⟩ :=
    update_sub_task_found fmt reg tid sn sty st msg prog outs none now wf hw
  unfold subStatusOf subTaskOf
  rw [hres]
  show (dictGet wf'.sub_tasks sn).map (·.status) = some st
  rw [hsb, dictGet_dictSet_self]
  simp [appliedSub_error_none_status]

/-- C9 witness: a Failed SubTask moved back to Running by a plain update. -/
theorem C9_witness :
    subStatusOf [("w", wfC9)] "w" "s" = some TaskStatus.failed ∧
    subStatusOf (update_sub_task fmt0 [("w", wfC9)] "w" "s" "t" TaskStatus.running
        none none none none 3) "w" "s" = some TaskStatus.running :=
  ⟨by decide,
    C9_status_follows_argument fmt0 [("w", wfC9)] "w" "s" "t" TaskStatus.running
      none none none 3 wfC9 { type := "t", status := TaskStatus.failed, error := some "old" }
      (by decide) (by decide)⟩

/-! ## Claim C8 -/

/-- C8: on an existing SubTask, fields whose arguments are omitted keep their
previous values (first part); and across any sequence of `update_sub_task`
calls on the same (workflow, subTaskName), outputs accumulate by key-wise
merge, so a key set earlier survives every later call whose outputs do not
mention it (second part). -/
theorem C8_frame_and_merge (fmt : ℚ → String) :
    (∀ reg : Registry, ∀ tid sn sty : String, ∀ st : TaskStatus, ∀ now : ℚ,
      ∀ wf : WorkflowTask, ∀ s : SubTask, dictGet reg tid = some wf →
      dictGet wf.sub_tasks sn = some s →
      ∃ s', subTaskOf (update_sub_task fmt reg tid sn sty st none none none none now) tid sn
              = some s' ∧
        s'.message = s.message ∧ s'.progress = s.progress ∧ s'.outputs = s.outputs ∧
        s'.error = s.error) ∧
    (∀ reg : Registry, ∀ tid sn k : String, ∀ v : Val, ∀ calls : List UpdateCall,
      ∀ s : SubTask, subTaskOf reg tid sn = some s →
      dictGet s.outputs k = some v →
      (∀ c ∈ calls, callMentions c k = false) →
      ∃ s', subTaskOf (applyCalls fmt tid sn reg calls) tid sn = some s' ∧
        dictGet s'.outputs k = some v) := by
  constructor
  · intro reg tid sn sty st now wf s hw hs
    obtain ⟨wf', hres, hsb, -, -, -, -⟩ :=
      update_sub_task_found fmt reg tid sn sty st none none none none now wf hw
    have hprior : priorSub wf sn sty now = s := by
      unfold priorSub
      rw [hs]
    refine ⟨{ s with status := st, updated_at := now }, ?_, rfl, rfl, rfl, rfl⟩
    unfold subTaskOf
    rw [hres]
    show dictGet wf'.sub_tasks sn = _
    rw [hsb, hprior, dictGet_dictSet_self, appliedSub_all_none]
  · intro reg tid sn k v calls
    induction calls generalizing reg with
    | nil =>
      intro s hsub hget _
      exact ⟨s, hsub, hget⟩
    | cons c rest ih =>
      intro s hsub hget hcalls
      obtain ⟨wf, hw, hs⟩ : ∃ wf, dictGet reg tid = some wf ∧
          dictGet wf.sub_tasks sn = some s := by
        unfold subTaskOf at hsub
        cases hwf : dictGet reg tid with
        | none =>
          rw [hwf] at hsub
          simp at hsub
        | some wf =>
          rw [hwf] at hsub
          exact ⟨wf, rfl, by simpa using hsub⟩
      obtain ⟨wf', hres, hsb, -, -, -, -⟩ :=
        update_sub_task_found fmt reg tid sn c.stype c.status c.message c.progress
          c.outputs c.error c.at_time wf hw
      have hprior : priorSub wf sn c.stype c.at_time = s := by
        unfold priorSub
        rw [hs]
      have hs' : dictGet wf'.sub_tasks sn
          = some (appliedSub s c.status c.message c.progress c.outputs c.error c.at_time) := by
        rw [hsb, hprior, dictGet_dictSet_self]
      have hout : dictGet (appliedSub s c.status c.message c.progress c.outputs c.error
          c.at_time).outputs k = some v := by
        rw [appliedSub_outputs]
        cases ho : c.outputs with
        | none =>
          show dictGet s.outputs k = some v
          exact hget
        | some o =>
          have hnone : dictGet o k = none := by
            have hm := hcalls c (List.mem_cons_self c rest)
            simp only [callMentions, ho] at hm
            cases hgo : dictGet o k with
            | none => rfl
            | some x =>
              rw [hgo] at hm
              simp at hm
          show dictGet (dictUpdate s.outputs o) k = some v
          rw [dictGet_dictUpdate_none o s.outputs k hnone]
          exact hget
      have hstep : subTaskOf (update_sub_task fmt reg tid sn c.stype c.status c.message
          c.progress c.outputs c.error c.at_time) tid sn
          = some (appliedSub s c.status c.message c.progress c.outputs c.error c.at_time) := by
        unfold subTaskOf
        rw [hres]
        show dictGet wf'.sub_tasks sn = _
        exact hs'
      have := ih (update_sub_task fmt reg tid sn c.stype c.status c.message c.progress
          c.outputs c.error c.at_time)
        (appliedSub s c.status c.message c.progress c.outputs c.error c.at_time)
        hstep hout (fun c' hc' => hcalls c' (List.mem_cons_of_mem c hc'))
      exact this

/-- C8 witness: the frame part and the merge part evaluated on `wfC8`, with a
later call that does not mention the key `k`. -/
theorem C8_witness :
    (∃ s', subTaskOf (update_sub_task fmt0 [("w", wfC8)] "w" "s" "t" TaskStatus.completed
        none none none none 5) "w" "s" = some s' ∧
      s'.message = "m" ∧ s'.progress = 7 ∧ s'.outputs = [("k", Val.str "v")] ∧
      s'.error = none) ∧
    (∃ s', subTaskOf (applyCalls fmt0 "w" "s" [("w", wfC8)]
        [{ stype := "t", status := TaskStatus.completed,
           outputs := some [("other", Val.num 1)], at_time := 6 }]) "w" "s" = some s' ∧
      dictGet s'.outputs "k" = some (Val.str "v")) := by
  constructor
  · obtain ⟨s', h1, h2, h3, h4, h5⟩ :=
      (C8_frame_and_merge fmt0).1 [("w", wfC8)] "w" "s" "t" TaskStatus.completed 5 wfC8
        { type := "t", status := TaskStatus.running, message := "m", progress := 7,
          outputs := [("k", Val.str "v")], error := none }
        (by decide) (by decide)
    exact ⟨s', h1, h2, h3, h4, h5⟩
  · exact (C8_frame_and_merge fmt0).2 [("w", wfC8)] "w" "s" "k" (Val.str "v")
      [{ stype := "t", status := TaskStatus.completed,
         outputs := some [("other", Val.num 1)], at_time := 6 }]
      { type := "t", status := TaskStatus.running, message := "m", progress := 7,
        outputs := [("k", Val.str "v")], error := none }
      (by decide) (by decide) (by decide)

/-! ## Claim C10 -/

theorem load_no_new_key (snap : List (String × TaskRecord)) (acc : Registry) (tid : String)
    (hacc : dictGet acc tid = none) (hsnap : ∀ p ∈ snap, p.1 ≠ tid) :
    dictGet (load_tasks_from_disk snap acc) tid = none := by
  induction snap generalizing acc with
  | nil => exact hacc
  | cons p rest ih =>
    obtain ⟨t0, r0⟩ := p
    have ht0 : t0 ≠ tid := hsnap (t0, r0) (List.mem_cons_self _ _)
    have hrest : ∀ q ∈ rest, q.1 ≠ tid := fun q hq => hsnap q (List.mem_cons_of_mem _ hq)
    cases hr : loadRecord r0 with
    | skip =>
      simp only [load_tasks_from_disk, hr]
      exact ih acc hacc hrest
    | abort =>
      simp only [load_tasks_from_disk, hr]
      exact hacc
    | add wf =>
      simp only [load_tasks_from_disk, hr]
      refine ih (dictSet acc t0 wf) ?_ hrest
      rw [dictGet_dictSet, if_neg ht0]
      exact hacc

/-- C10: during load, a persisted record lacking the `sub_tasks` key is
silently skipped - loading the snapshot equals loading it without that record,
and when no other record carries that id (and it was not already loaded) the
id is absent from the registry after load; the other records are still
loaded. -/
theorem C10_old_format_skipped (pre post : List (String × TaskRecord)) (tid : String)
    (rec : TaskRecord) (acc : Registry) (h : rec.sub_tasks = none) :
    load_tasks_from_disk (pre ++ (tid, rec) :: post) acc
      = load_tasks_from_disk (pre ++ post) acc ∧
    (dictGet acc tid = none → (∀ p ∈ pre ++ post, p.1 ≠ tid) →
      dictGet (load_tasks_from_disk (pre ++ (tid, rec) :: post) acc) tid = none) := by
  have hskip : loadRecord rec = LoadStep.skip := by
    unfold loadRecord
    rw [h]
  have hmain : ∀ acc', load_tasks_from_disk (pre ++ (tid, rec) :: post) acc'
      = load_tasks_from_disk (pre ++ post) acc' := by
    induction pre with
    | nil =>
      intro acc'
      simp only [List.nil_append, load_tasks_from_disk, hskip]
    | cons q rest ih =>
      intro acc'
      obtain ⟨t0, r0⟩ := q
      cases hr : loadRecord r0 with
      | skip =>
        simp only [List.cons_append, load_tasks_from_disk, hr]
        exact ih _
      | abort =>
        simp only [List.cons_append, load_tasks_from_disk, hr]
      | add wf =>
        simp only [List.cons_append, load_tasks_from_disk, hr]
        exact ih _
  refine ⟨hmain acc, ?_⟩
  intro hacc hkeys
  rw [hmain acc]
  exact load_no_new_key (pre ++ post) acc tid hacc hkeys

/-- C10 witness: a snapshot holding a good record and an old-format record -
the old id is absent after load, the good record is loaded. -/
theorem C10_witness :
    load_tasks_from_disk [("a", recC10a), ("old", recC10old)] []
      = load_tasks_from_disk [("a", recC10a)] [] ∧
    dictGet (load_tasks_from_disk [("a", recC10a), ("old", recC10old)] []) "old" = none ∧
    (dictGet (load_tasks_from_disk [("a", recC10a), ("old", recC10old)] []) "a").isSome
      = true := by
  have h := C10_old_format_skipped [("a", recC10a)] [] "old" recC10old [] (by decide)
  refine ⟨by simpa using h.1, by simpa using h.2 (by decide) (by decide), by decide⟩

/-! ## Claim C2 -/

/-- C2 counterexample: saving a Running workflow holding a Running SubTask and
loading it back forces the workflow to Failed with the restart error, but the
SubTask is loaded back still Running - the claim that no loaded SubTask has
status Running is false. -/
theorem C2_counterexample :
    wfStatusOf (load_tasks_from_disk (save_tasks_to_disk [("w", wfC2)]) []) "w"
        = some TaskStatus.failed ∧
    (dictGet (load_tasks_from_disk (save_tasks_to_disk [("w", wfC2)]) []) "w").map (·.error)
        = some (some "Процесс был прерван перезапуском сервера.") ∧
    subStatusOf (load_tasks_from_disk (save_tasks_to_disk [("w", wfC2)]) []) "w" "s"
        = some TaskStatus.running := by
  decide

theorem statusOfString_statusValue (st : TaskStatus) :
    statusOfString (statusValue st) = some st := by
  cases st <;> rfl

theorem statusValue_running_iff (st : TaskStatus) :
    statusValue st = "running" ↔ st = TaskStatus.running := by
  cases st <;> decide

theorem parseSubRecord_to_dict (s : SubTask) :
    parseSubRecord (SubTask.to_dict s) = some s := by
  unfold parseSubRecord SubTask.to_dict
  rw [statusOfString_statusValue]
  rfl

theorem parseSubRecords_to_dict (l : List (String × SubTask)) :
    parseSubRecords (l.map fun p => (p.1, p.2.to_dict)) = some l := by
  induction l with
  | nil => rfl
  | cons p rest ih =>
    obtain ⟨n, s⟩ := p
    simp only [List.map_cons, parseSubRecords, parseSubRecord_to_dict, ih]

theorem loadRecord_to_dict (wf : WorkflowTask) :
    loadRecord (WorkflowTask.to_dict wf) = LoadStep.add (loadTransform wf) := by
  unfold loadRecord WorkflowTask.to_dict loadTransform
  simp only [parseSubRecords_to_dict]
  by_cases hr : wf.status = TaskStatus.running
  · rw [hr]
    rfl
  · have hv : ¬ statusValue wf.status = "running" :=
      fun hh => hr ((statusValue_running_iff wf.status).mp hh)
    simp only [if_neg hv, if_neg hr, statusOfString_statusValue]

theorem load_save_aux (reg : Registry) (acc : Registry)
    (hdisj : ∀ p ∈ reg, dictGet acc p.1 = none)
    (hnd : (reg.map Prod.fst).Nodup) :
    load_tasks_from_disk (save_tasks_to_disk reg) acc
      = acc ++ reg.map fun p => (p.1, loadTransform p.2) := by
  induction reg generalizing acc with
  | nil => simp [save_tasks_to_disk, load_tasks_from_disk]
  | cons p rest ih =>
    obtain ⟨tid, wf⟩ := p
    have hacc : dictGet acc tid = none := hdisj (tid, wf) (List.mem_cons_self _ _)
    have hnd' : (rest.map Prod.fst).Nodup := (List.nodup_cons.mp (by simpa using hnd)).2
    have htid : tid ∉ rest.map Prod.fst := (List.nodup_cons.mp (by simpa using hnd)).1
    have step : load_tasks_from_disk (save_tasks_to_disk ((tid, wf) :: rest)) acc
        = load_tasks_from_disk (save_tasks_to_disk rest)
            (dictSet acc tid (loadTransform wf)) := by
      show load_tasks_from_disk ((tid, WorkflowTask.to_dict wf) :: save_tasks_to_disk rest)
          acc = _
      simp only [load_tasks_from_disk, loadRecord_to_dict]
    rw [step, dictSet_of_get_none acc tid (loadTransform wf) hacc]
    have hdisj' : ∀ q ∈ rest, dictGet (acc ++ [(tid, loadTransform wf)]) q.1 = none := by
      intro q hq
      have h1 : dictGet acc q.1 = none := hdisj q (List.mem_cons_of_mem _ hq)
      have hqt : tid ≠ q.1 := by
        intro hh
        exact htid (by rw [hh]; exact List.mem_map_of_mem Prod.fst hq)
      rw [dictGet_append, h1]
      show dictGet [(tid, loadTransform wf)] q.1 = none
      simp [dictGet, hqt]
    rw [ih (acc ++ [(tid, loadTransform wf)]) hdisj' hnd']
    simp

/-- C2 (amended): reloading a saved snapshot reproduces the registry except
that every workflow saved as Running is loaded as Failed carrying the explicit
restart-interruption error; SubTask statuses are loaded back unchanged, so a
SubTask saved as Running is still Running after the restart (no SubTask-level
interruption marking exists). -/
theorem C2_roundtrip (reg : Registry) (hnd : (reg.map Prod.fst).Nodup) :
    load_tasks_from_disk (save_tasks_to_disk reg) []
      = reg.map fun p => (p.1, loadTransform p.2) := by
  simpa using load_save_aux reg [] (fun p _ => rfl) hnd

/-- C2 witness: the round-trip evaluated on a two-workflow registry. -/
theorem C2_witness :
    load_tasks_from_disk (save_tasks_to_disk regC2w) []
      = regC2w.map fun p => (p.1, loadTransform p.2) :=
  C2_roundtrip regC2w (by decide)

/-! ## Claim C6 -/

/-- C6 counterexample: on the stage-ordered update chain `regP0 … regP5`
(initial processing created, completed; transcription created, progress raised
to 50, completed) the aggregate progress drops from 250/3 ≈ 83.3 down to 60
when `transcription` is marked Completed, because completion pulls the next
stage's weight into the normalizing mass - so the aggregate is not
monotonically non-decreasing across the sequence. -/
theorem C6_counterexample :
    (dictGet regP4 "w").map calculate_progress = some (250 / 3) ∧
    (dictGet regP5 "w").map calculate_progress = some 60 ∧
    ((60 : ℚ) < 250 / 3) := by
  refine ⟨?_, ?_, ?_⟩
  · with_unfolding_all rfl
  · with_unfolding_all rfl
  · norm_num

theorem entriesLE_cons_iff (n n' : String) (s s' : SubTask)
    (as bs : List (String × SubTask)) :
    entriesLE ((n, s) :: as) ((n', s') :: bs) = true ↔
      n = n' ∧ s.status = s'.status ∧ s.progress ≤ s'.progress ∧ entriesLE as bs = true := by
  simp [entriesLE, Bool.and_eq_true, and_assoc]

theorem entriesLE_dictGet (a b : List (String × SubTask)) (h : entriesLE a b = true)
    (k : String) : optSubLE (dictGet a k) (dictGet b k) := by
  induction a generalizing b with
  | nil =>
    cases b with
    | nil => trivial
    | cons q bs => simp [entriesLE] at h
  | cons p as ih =>
    cases b with
    | nil => simp [entriesLE] at h
    | cons q bs =>
      obtain ⟨n, s⟩ := p
      obtain ⟨n', s'⟩ := q
      obtain ⟨hn, hst, hpr, hrest⟩ := (entriesLE_cons_iff n n' s s' as bs).mp h
      subst hn
      by_cases hk : n = k
      · simp only [dictGet, if_pos hk]
        exact ⟨hst, hpr⟩
      · simp only [dictGet, if_neg hk]
        exact ih bs hrest

theorem entriesLE_filter (a b : List (String × SubTask)) (h : entriesLE a b = true)
    (pre : String) :
    entriesLE (a.filter fun p => strHasLead p.1 pre) (b.filter fun p => strHasLead p.1 pre)
      = true := by
  induction a generalizing b with
  | nil =>
    cases b with
    | nil => rfl
    | cons q bs => simp [entriesLE] at h
  | cons p as ih =>
    cases b with
    | nil => simp [entriesLE] at h
    | cons q bs =>
      obtain ⟨n, s⟩ := p
      obtain ⟨n', s'⟩ := q
      obtain ⟨hn, hst, hpr, hrest⟩ := (entriesLE_cons_iff n n' s s' as bs).mp h
      subst hn
      by_cases hf : strHasLead n pre
      · simp only [List.filter_cons, hf]
        exact (entriesLE_cons_iff n n s s' _ _).mpr ⟨rfl, hst, hpr, ih bs hrest⟩
      · simp only [List.filter_cons, hf]
        exact ih bs hrest

theorem entriesLE_headOpt (a b : List (String × SubTask)) (h : entriesLE a b = true) :
    optSubLE (a.head?.map Prod.snd) (b.head?.map Prod.snd) := by
  cases a with
  | nil =>
    cases b with
    | nil => trivial
    | cons q bs => simp [entriesLE] at h
  | cons p as =>
    cases b with
    | nil => simp [entriesLE] at h
    | cons q bs =>
      obtain ⟨n, s⟩ := p
      obtain ⟨n', s'⟩ := q
      obtain ⟨-, hst, hpr, -⟩ := (entriesLE_cons_iff n n' s s' as bs).mp h
      exact ⟨hst, hpr⟩

theorem optSubLE_isSome (s s' : Option SubTask) (h : optSubLE s s') :
    s.isSome = s'.isSome := by
  cases s <;> cases s' <;> simp_all [optSubLE]

theorem optSubLE_isCompleted (s s' : Option SubTask) (h : optSubLE s s') :
    isCompletedO s = isCompletedO s' := by
  cases s with
  | none => cases s' <;> simp_all [optSubLE]
  | some x =>
    cases s' with
    | none => simp_all [optSubLE]
    | some y =>
      obtain ⟨hst, -⟩ := h
      simp [isCompletedO, hst]

theorem contrib_mono (w : ℚ) (hw : 0 ≤ w) (s s' : Option SubTask) (h : optSubLE s s') :
    contrib w s ≤ contrib w s' := by
  cases s with
  | none =>
    cases s' with
    | none => exact le_refl _
    | some y => exact absurd h (by simp [optSubLE])
  | some x =>
    cases s' with
    | none => exact absurd h (by simp [optSubLE])
    | some y =>
      obtain ⟨hst, hpr⟩ := h
      show (if x.status = TaskStatus.completed then w
            else if x.status = TaskStatus.running then x.progress * w / 100 else 0)
          ≤ (if y.status = TaskStatus.completed then w
             else if y.status = TaskStatus.running then y.progress * w / 100 else 0)
      rw [hst]
      by_cases hc : y.status = TaskStatus.completed
      · simp [hc]
      · by_cases hrun : y.status = TaskStatus.running
        · simp only [if_neg hc, if_pos hrun]
          gcongr
        · simp [hc, hrun]

theorem cpTotal_mono (a b : List (String × SubTask)) (h : entriesLE a b = true) :
    cpTotal a ≤ cpTotal b := by
  unfold cpTotal clippingHead shortsHead
  have h20 : (0 : ℚ) ≤ 20 := by norm_num
  have h10 : (0 : ℚ) ≤ 10 := by norm_num
  have h30 : (0 : ℚ) ≤ 30 := by norm_num
  gcongr ?_ + ?_ + ?_ + ?_ + ?_
  · exact contrib_mono 20 h20 _ _ (entriesLE_dictGet a b h _)
  · exact contrib_mono 10 h10 _ _ (entriesLE_dictGet a b h _)
  · exact contrib_mono 20 h20 _ _ (entriesLE_dictGet a b h _)
  · exact contrib_mono 20 h20 _ _ (entriesLE_headOpt _ _ (entriesLE_filter a b h _))
  · exact contrib_mono 30 h30 _ _ (entriesLE_headOpt _ _ (entriesLE_filter a b h _))

theorem cpWeight_eq (a b : List (String × SubTask)) (h : entriesLE a b = true) :
    cpWeight a = cpWeight b := by
  unfold cpWeight clippingHead shortsHead
  rw [optSubLE_isSome _ _ (entriesLE_dictGet a b h "initial_processing"),
    optSubLE_isSome _ _ (entriesLE_dictGet a b h "transcription"),
    optSubLE_isSome _ _ (entriesLE_dictGet a b h "ai_clip_generation"),
    optSubLE_isSome _ _ (entriesLE_headOpt _ _ (entriesLE_filter a b h "clipping_")),
    optSubLE_isSome _ _ (entriesLE_headOpt _ _ (entriesLE_filter a b h "shorts_creation_")),
    optSubLE_isCompleted _ _ (entriesLE_dictGet a b h "initial_processing"),
    optSubLE_isCompleted _ _ (entriesLE_dictGet a b h "transcription"),
    optSubLE_isCompleted _ _ (entriesLE_dictGet a b h "ai_clip_generation"),
    optSubLE_isCompleted _ _ (entriesLE_headOpt _ _ (entriesLE_filter a b h "clipping_"))]

/-- C6 (amended): the aggregate is monotone in the SubTasks' progress values -
for two workflows whose subtask dictionaries have the same names and statuses
with pointwise non-decreasing progress, `calculate_progress` does not decrease.
Monotonicity across a full stage-ordered update sequence fails, however:
marking a stage Completed adds the successor stage's weight to the normalizing
mass and can lower the aggregate (see the counterexample). -/
theorem C6_progress_monotone (wf wf' : WorkflowTask)
    (h : entriesLE wf.sub_tasks wf'.sub_tasks = true) :
    calculate_progress wf ≤ calculate_progress wf' := by
  unfold calculate_progress
  by_cases he : wf.sub_tasks = []
  · have he' : wf'.sub_tasks = [] := by
      cases hb : wf'.sub_tasks with
      | nil => rfl
      | cons q bs =>
        rw [he, hb] at h
        simp [entriesLE] at h
    rw [if_pos he, if_pos he']
  · have he' : wf'.sub_tasks ≠ [] := by
      intro hb
      cases ha : wf.sub_tasks with
      | nil => exact he ha
      | cons q as =>
        rw [ha, hb] at h
        simp [entriesLE] at h
    rw [if_neg he, if_neg he', cpWeight_eq wf.sub_tasks wf'.sub_tasks h]
    by_cases hwpos : 0 < cpWeight wf'.sub_tasks
    · rw [if_pos hwpos, if_pos hwpos]
      have htot := cpTotal_mono wf.sub_tasks wf'.sub_tasks h
      have hdiv : cpTotal wf.sub_tasks / cpWeight wf'.sub_tasks
          ≤ cpTotal wf'.sub_tasks / cpWeight wf'.sub_tasks := by
        gcongr
      have hmul : cpTotal wf.sub_tasks / cpWeight wf'.sub_tasks * 100
          ≤ cpTotal wf'.sub_tasks / cpWeight wf'.sub_tasks * 100 := by
        have h100 : (0 : ℚ) ≤ 100 := by norm_num
        exact mul_le_mul_of_nonneg_right hdiv h100
      exact min_le_min (le_refl 100) hmul
    · rw [if_neg hwpos, if_neg hwpos]

/-- C6 witness: raising the running transcription's progress from 0 to 50 with
statuses fixed does not decrease the aggregate. -/
theorem C6_witness : calculate_progress wfM1 ≤ calculate_progress wfM2 :=
  C6_progress_monotone wfM1 wfM2 (by decide)

/-! ## Preservation lemmas for the automaton's primitive operations -/

theorem dictGet_eq_none_of_forall_ne {α : Type} (d : List (String × α)) (k : String)
    (h : ∀ p ∈ d, p.1 ≠ k) : dictGet d k = none := by
  induction d with
  | nil => rfl
  | cons p rest ih =>
    obtain ⟨k0, v0⟩ := p
    have hk0 : k0 ≠ k := h (k0, v0) (List.mem_cons_self _ _)
    simp only [dictGet, if_neg hk0]
    exact ih fun q hq => h q (List.mem_cons_of_mem _ hq)

theorem uwa_found (reg : Registry) (tid : String) (f : Artifacts → Artifacts) (now : ℚ)
    (wf : WorkflowTask) (hw : dictGet reg tid = some wf) :
    update_workflow_artifacts reg tid f now
      = dictSet reg tid { wf with artifacts := f wf.artifacts, updated_at := now } := by
  unfold update_workflow_artifacts
  rw [hw]

theorem uwa_missing (reg : Registry) (tid : String) (f : Artifacts → Artifacts) (now : ℚ)
    (hw : dictGet reg tid = none) :
    update_workflow_artifacts reg tid f now = reg := by
  unfold update_workflow_artifacts
  rw [hw]

theorem uwa_ctl (reg : Registry) (tid : String) (f : Artifacts → Artifacts) (now : ℚ)
    (hf : ∀ a : Artifacts, (f a).auto_mode = a.auto_mode
      ∧ (f a).last_auto_continue = a.last_auto_continue
      ∧ (f a).auto_continue_processing = a.auto_continue_processing) :
    ctlOf (update_workflow_artifacts reg tid f now) tid = ctlOf reg tid := by
  cases hw : dictGet reg tid with
  | none => rw [uwa_missing reg tid f now hw]
  | some wf =>
    rw [uwa_found reg tid f now wf hw]
    unfold ctlOf
    rw [dictGet_dictSet_self, hw]
    simp [(hf wf.artifacts).1, (hf wf.artifacts).2.1, (hf wf.artifacts).2.2]

theorem uwa_subTasks (reg : Registry) (tid : String) (f : Artifacts → Artifacts) (now : ℚ) :
    subTasksOf (update_workflow_artifacts reg tid f now) tid = subTasksOf reg tid := by
  cases hw : dictGet reg tid with
  | none => rw [uwa_missing reg tid f now hw]
  | some wf =>
    rw [uwa_found reg tid f now wf hw]
    unfold subTasksOf
    rw [dictGet_dictSet_self, hw]
    rfl

theorem uwa_setLast_ctl (reg : Registry) (tid : String) (now : ℚ) (wf : WorkflowTask)
    (hw : dictGet reg tid = some wf) :
    ctlOf (update_workflow_artifacts reg tid
        (fun a => { a with last_auto_continue := now }) now) tid
      = some (wf.artifacts.auto_mode, now, wf.artifacts.auto_continue_processing) := by
  rw [uwa_found reg tid _ now wf hw]
  unfold ctlOf
  rw [dictGet_dictSet_self]
  rfl

theorem uwa_setFlag_ctl (reg : Registry) (tid : String) (b : Bool) (now : ℚ)
    (wf : WorkflowTask) (hw : dictGet reg tid = some wf) :
    ctlOf (update_workflow_artifacts reg tid
        (fun a => { a with auto_continue_processing := b }) now) tid
      = some (wf.artifacts.auto_mode, wf.artifacts.last_auto_continue, b) := by
  rw [uwa_found reg tid _ now wf hw]
  unfold ctlOf
  rw [dictGet_dictSet_self]
  rfl

theorem ust_ctl (fmt : ℚ → String) (reg : Registry) (tid sn sty : String)
    (st : TaskStatus) (msg : Option String) (prog : Option ℚ)
    (outs : Option (List (String × Val))) (err : Option String) (now : ℚ) :
    ctlOf (update_sub_task fmt reg tid sn sty st msg prog outs err now) tid
      = ctlOf reg tid := by
  cases hw : dictGet reg tid with
  | none => rw [update_sub_task_missing fmt reg tid sn sty st msg prog outs err now hw]
  | some wf =>
    obtain ⟨wf', hres, -, -, hA, hL, hP⟩ :=
      update_sub_task_found fmt reg tid sn sty st msg prog outs err now wf hw
    unfold ctlOf
    rw [hres, hw]
    simp [hA, hL, hP]

theorem gacdProbe_ctl (env : Env) (workflow : WorkflowTask) (reg : Registry)
    (tid : String) (now : ℚ) :
    ctlOf (gacdProbe env workflow reg tid now) tid = ctlOf reg tid := by
  unfold gacdProbe
  split
  · split
    · split
      · split
        · exact uwa_ctl reg tid _ now fun a => ⟨rfl, rfl, rfl⟩
        · rfl
      · rfl
    · rfl
  · rfl

theorem gacdFinish_ctl (env : Env) (reg : Registry) (tid sp up : String) (now : ℚ) :
    ctlOf (gacdFinish env reg tid sp up now) tid = ctlOf reg tid := by
  unfold gacdFinish
  have h1 : ctlOf (update_workflow_artifacts reg tid
      (fun a => { a with ai_metadata := some env.aiClips }) now) tid = ctlOf reg tid :=
    uwa_ctl _ _ _ _ fun a => ⟨rfl, rfl, rfl⟩
  have h2 : ctlOf (update_workflow_artifacts
        (update_workflow_artifacts reg tid
          (fun a => { a with ai_metadata := some env.aiClips }) now)
        tid
        (fun a => { a with ai_clips_files :=
          ({ path := env.aiSavePath, system_prompt_id := sp, user_prompt_id := up,
             created_at := now, sub_tasks := [] } : FileInfo) :: a.ai_clips_files }) now) tid
      = ctlOf (update_workflow_artifacts reg tid
          (fun a => { a with ai_metadata := some env.aiClips }) now) tid :=
    uwa_ctl _ _ _ _ fun a => ⟨rfl, rfl, rfl⟩
  exact (ust_ctl _ _ _ _ _ _ _ _ _ _ _).trans (h2.trans h1)

theorem gacd_ctl (env : Env) (reg : Registry) (tid sp up : String) (now : ℚ) :
    ctlOf (generate_ai_clips_direct env reg tid sp up now).1 tid = ctlOf reg tid := by
  unfold generate_ai_clips_direct
  split
  · rfl
  · split
    · rfl
    · split
      · rfl
      · split
        · exact ust_ctl env.fmt reg tid _ _ _ _ _ _ _ now
        · split
          · rw [gacdProbe_ctl, ust_ctl]
          · rw [gacdFinish_ctl, gacdProbe_ctl, ust_ctl]

/-! ## Name-prefix lemmas for generated subtask names -/

theorem charsLead_self_append (l m : List Char) : charsLead l (l ++ m) = true := by
  induction l with
  | nil => rfl
  | cons c cs ih => simp [charsLead, ih]

theorem charsLead_append_right (l m k : List Char) (h : charsLead l m = true) :
    charsLead l (m ++ k) = true := by
  induction l generalizing m with
  | nil => rfl
  | cons c cs ih =>
    cases m with
    | nil => simp [charsLead] at h
    | cons b bs =>
      simp only [charsLead, Bool.and_eq_true] at h
      simp only [List.cons_append, charsLead, Bool.and_eq_true]
      exact ⟨h.1, ih bs h.2⟩

theorem string_data_append (s t : String) : (s ++ t).data = s.data ++ t.data := rfl

theorem strHasLead_gen (fmt : ℚ → String) (fi : FileInfo) (stype : String) :
    strHasLead (generate_subtask_name fmt fi stype) (stype ++ "_") = true := by
  unfold generate_subtask_name strHasLead
  rw [string_data_append, string_data_append, string_data_append, string_data_append,
    string_data_append, string_data_append]
  exact charsLead_append_right _ _ _ (charsLead_append_right _ _ _
    (charsLead_append_right _ _ _ (charsLead_append_right _ _ _
      (charsLead_self_append _ _))))

theorem strHasLead_gen_clipping (fmt : ℚ → String) (fi : FileInfo) :
    strHasLead (generate_subtask_name fmt fi "clipping") "clipping_" = true := by
  have h := strHasLead_gen fmt fi "clipping"
  have hd : ("clipping" ++ "_" : String) = "clipping_" := by decide
  rw [hd] at h
  exact h

/-! ## Behaviour of the automaton's stages -/

theorem stage3_spec (env : Env) (reg : Registry) (wf : WorkflowTask) (tid : String)
    (now : ℚ) :
    ((acwStage3 env reg wf tid now).1 = reg ∧ (acwStage3 env reg wf tid now).2.2 = []) ∨
    ((acwStage3 env reg wf tid now).2.2 = [Launch.shortsCreation] ∧
      shortsFam wf.sub_tasks = [] ∧
      ctlOf (acwStage3 env reg wf tid now).1 tid = ctlOf reg tid) := by
  simp only [acwStage3]
  split
  · exact Or.inl ⟨rfl, rfl⟩
  · split
    · exact Or.inl ⟨rfl, rfl⟩
    · split
      · exact Or.inl ⟨rfl, rfl⟩
      · rename_i hshorts
        split
        · exact Or.inl ⟨rfl, rfl⟩
        · split
          · exact Or.inl ⟨rfl, rfl⟩
          · split
            · exact Or.inl ⟨rfl, rfl⟩
            · split
              · refine Or.inr ⟨rfl, not_ne_iff.mp hshorts, ?_⟩
                exact ust_ctl _ _ _ _ _ _ _ _ _ _ _
              · refine Or.inr ⟨rfl, not_ne_iff.mp hshorts, ?_⟩
                refine (ust_ctl _ _ _ _ _ _ _ _ _ _ _).trans ?_
                apply uwa_ctl
                intro a
                exact ⟨rfl, rfl, rfl⟩

theorem stage2_spec (env : Env) (reg : Registry) (wf : WorkflowTask) (tid : String)
    (now : ℚ) (hsub : subTasksOf reg tid = some wf.sub_tasks) :
    ((acwStage2 env reg wf tid now).1 = reg ∧ (acwStage2 env reg wf tid now).2.2 = []) ∨
    ((acwStage2 env reg wf tid now).2.2 = [Launch.shortsCreation] ∧
      shortsFam wf.sub_tasks = [] ∧
      ctlOf (acwStage2 env reg wf tid now).1 tid = ctlOf reg tid) ∨
    ((acwStage2 env reg wf tid now).2.2 = [Launch.clipping] ∧
      clippingFam wf.sub_tasks = [] ∧
      ctlOf (acwStage2 env reg wf tid now).1 tid = ctlOf reg tid) := by
  obtain ⟨wfr, hww, hwsub⟩ : ∃ wfr, dictGet reg tid = some wfr ∧
      wfr.sub_tasks = wf.sub_tasks := by
    unfold subTasksOf at hsub
    cases hww : dictGet reg tid with
    | none =>
      rw [hww] at hsub
      simp at hsub
    | some wfr =>
      rw [hww] at hsub
      exact ⟨wfr, rfl, by simpa using hsub⟩
  simp only [acwStage2]
  split
  · split
    · rcases stage3_spec env reg wf tid now with ⟨h1, h2⟩ | ⟨h1, h2, h3⟩
      · exact Or.inl ⟨h1, h2⟩
      · exact Or.inr (Or.inl ⟨h1, h2, h3⟩)
    · rename_i hclip
      split
      · exact Or.inl ⟨rfl, rfl⟩
      · rename_i file_info tailF haifiles
        split
        · exact Or.inl ⟨rfl, rfl⟩
        · split
          · exact Or.inl ⟨rfl, rfl⟩
          · rename_i raw hraw
            split
            · exact Or.inl ⟨rfl, rfl⟩
            · split
              · exact Or.inl ⟨rfl, rfl⟩
              · rename_i vp hvp
                split
                · exact Or.inl ⟨rfl, rfl⟩
                · split
                  · exact Or.inl ⟨rfl, rfl⟩
                  · -- the clipping launch branch
                    set mir : SubMirror :=
                      { status := "running", message := "Начало нарезки клипов",
                        progress := 0, error := none, outputs := [], updated_at := now }
                      with hmir
                    set fi2 : FileInfo :=
                      { file_info with
                        sub_tasks := dictSet file_info.sub_tasks "clipping" mir }
                      with hfi2
                    set uname : String := generate_subtask_name env.fmt file_info "clipping"
                      with hunamedef
                    set fM : Artifacts → Artifacts :=
                      fun a => { a with ai_clips_files := listSet a.ai_clips_files 0 fi2 }
                      with hfM
                    set regM : Registry := update_workflow_artifacts reg tid fM now
                      with hregM
                    set regL : Registry := update_sub_task env.fmt regM tid uname "clipping"
                      TaskStatus.running (some "Начало нарезки клипов") (some 0) none none
                      now with hregL
                    have hMget : dictGet regM tid
                        = some { wfr with artifacts := fM wfr.artifacts, updated_at := now } := by
                      rw [hregM, uwa_found reg tid fM now wfr hww]
                      exact dictGet_dictSet_self _ _ _
                    obtain ⟨wf2, hres2, hsb2, -, -, -, -⟩ :=
                      update_sub_task_found env.fmt regM tid uname "clipping"
                        TaskStatus.running (some "Начало нарезки клипов") (some 0) none none
                        now _ hMget
                    have hMsub :
                        ({ wfr with artifacts := fM wfr.artifacts, updated_at := now }
                          : WorkflowTask).sub_tasks = wf.sub_tasks := hwsub
                    have huname : strHasLead uname "clipping_" = true :=
                      strHasLead_gen_clipping env.fmt file_info
                    have hclipeq : List.filter (fun p => strHasLead p.1 "clipping_")
                        wf.sub_tasks = [] := hclip
                    have hallne : ∀ p ∈ wf.sub_tasks, p.1 ≠ uname := by
                      intro p hp hpk
                      have hnp := List.filter_eq_nil_iff.mp hclipeq p hp
                      rw [hpk] at hnp
                      exact hnp huname
                    have hnone : dictGet wf.sub_tasks uname = none :=
                      dictGet_eq_none_of_forall_ne _ _ hallne
                    set s6 : SubTask := appliedSub
                      (priorSub { wfr with artifacts := fM wfr.artifacts, updated_at := now }
                        uname "clipping" now)
                      TaskStatus.running (some "Начало нарезки клипов") (some 0) none none
                      now with hs6
                    have hstatus6 : s6.status = TaskStatus.running := by
                      rw [hs6]
                      exact appliedSub_error_none_status _ _ _ _ _ _
                    have hfam2 : List.filter (fun p => strHasLead p.1 "clipping_")
                        wf2.sub_tasks = [(uname, s6)] := by
                      rw [hsb2, hMsub, dictSet_of_get_none _ _ _ hnone, List.filter_append,
                        hclipeq]
                      simp [huname]
                    have hW2 : (dictGet regL tid).getD wf = wf2 := by
                      rw [hregL, hres2]
                      rfl
                    have hstage3 : acwStage3 env regL wf2 tid (now + 1 / 2)
                        = (regL, false, []) := by
                      simp only [acwStage3, hfam2]
                      rw [if_pos]
                      rw [hstatus6]
                      decide
                    rw [hW2, hstage3]
                    refine Or.inr (Or.inr ⟨rfl, hclip, ?_⟩)
                    rw [hregL, hregM]
                    refine (ust_ctl _ _ _ _ _ _ _ _ _ _ _).trans ?_
                    apply uwa_ctl
                    intro a
                    exact ⟨rfl, rfl, rfl⟩
  · rcases stage3_spec env reg wf tid now with ⟨h1, h2⟩ | ⟨h1, h2, h3⟩
    · exact Or.inl ⟨h1, h2⟩
    · exact Or.inr (Or.inl ⟨h1, h2, h3⟩)

theorem ctlOf_some_elim (reg : Registry) (tid : String) (c : Bool × ℚ × Bool)
    (h : ctlOf reg tid = some c) :
    ∃ wf, dictGet reg tid = some wf ∧ wf.artifacts.auto_mode = c.1 ∧
      wf.artifacts.last_auto_continue = c.2.1 ∧
      wf.artifacts.auto_continue_processing = c.2.2 := by
  unfold ctlOf at h
  cases hx : dictGet reg tid with
  | none =>
    rw [hx] at h
    simp at h
  | some wf =>
    rw [hx] at h
    have htr : (wf.artifacts.auto_mode, wf.artifacts.last_auto_continue,
        wf.artifacts.auto_continue_processing) = c := by
      simpa using h
    exact ⟨wf, rfl, congrArg (fun t => t.1) htr, congrArg (fun t => t.2.1) htr,
      congrArg (fun t => t.2.2) htr⟩

theorem finish_ctl (regB : Registry) (tid : String) (now : ℚ) (A : Bool) (L : ℚ) (P : Bool)
    (h : ctlOf regB tid = some (A, L, P)) :
    ctlOf (update_workflow_artifacts regB tid
        (fun a => { a with auto_continue_processing := false }) now) tid
      = some (A, L, false) := by
  obtain ⟨wfb, hwb, h1, h2, h3⟩ := ctlOf_some_elim regB tid (A, L, P) h
  rw [uwa_setFlag_ctl regB tid false now wfb hwb, h1, h2]

/-- A forced invocation arriving while the mutual exclusion flag is set exits
at the flag check: it performs no launch and at most refreshes the debounce
stamp. -/
theorem acw_flagged (env : Env) (fuel : Nat) (reg : Registry) (tid : String) (now : ℚ)
    (wf : WorkflowTask) (hw : dictGet reg tid = some wf)
    (hP : wf.artifacts.auto_continue_processing = true) :
    auto_continue_workflow env fuel reg tid true now = (reg, false, []) ∨
    auto_continue_workflow env fuel reg tid true now
      = (update_workflow_artifacts reg tid
          (fun a => { a with last_auto_continue := now }) now, false, []) := by
  cases fuel with
  | zero => exact Or.inl rfl
  | succ n =>
    simp only [auto_continue_workflow, hw]
    by_cases hA : wf.artifacts.auto_mode = false
    · rw [if_pos hA]
      exact Or.inl rfl
    · rw [if_neg hA, if_neg (by simp : ¬(true = false ∧
        now - wf.artifacts.last_auto_continue < 1)), if_pos hP]
      exact Or.inr rfl

/-- Master invariant of one automaton invocation: at most one stage launch; the
registry is unchanged or carries a refreshed invocation stamp; every launch is
guarded by the absence of the corresponding stage's subtask (family) in the
entry state; and a non-forced invocation within the debounce window is a
no-op. -/
theorem acw_master (env : Env) (fuel : Nat) (reg : Registry) (tid : String)
    (force : Bool) (now : ℚ) (wf : WorkflowTask) (hw : dictGet reg tid = some wf) :
    (auto_continue_workflow env fuel reg tid force now).2.2.length ≤ 1 ∧
    (auto_continue_workflow env fuel reg tid force now = (reg, false, []) ∨
      ∃ c : Bool × ℚ × Bool,
        ctlOf (auto_continue_workflow env fuel reg tid force now).1 tid = some c ∧
        now ≤ c.2.1) ∧
    (Launch.aiGeneration ∈ (auto_continue_workflow env fuel reg tid force now).2.2 →
      dictGet wf.sub_tasks "ai_clip_generation" = none) ∧
    (Launch.clipping ∈ (auto_continue_workflow env fuel reg tid force now).2.2 →
      clippingFam wf.sub_tasks = []) ∧
    (Launch.shortsCreation ∈ (auto_continue_workflow env fuel reg tid force now).2.2 →
      shortsFam wf.sub_tasks = []) ∧
    (force = false → now - wf.artifacts.last_auto_continue < 1 →
      auto_continue_workflow env fuel reg tid force now = (reg, false, [])) := by
  cases fuel with
  | zero =>
    refine ⟨by simp [auto_continue_workflow], Or.inl rfl, ?_, ?_, ?_, fun _ _ => rfl⟩ <;>
      (intro hmem; simp [auto_continue_workflow] at hmem)
  | succ n =>
    by_cases hA : wf.artifacts.auto_mode = false
    · have hres : auto_continue_workflow env (n + 1) reg tid force now = (reg, false, []) := by
        simp only [auto_continue_workflow, hw]
        rw [if_pos hA]
      refine ⟨?_, Or.inl hres, ?_, ?_, ?_, fun _ _ => hres⟩
      · rw [hres]
        simp
      · rw [hres]
        intro hmem
        simp at hmem
      · rw [hres]
        intro hmem
        simp at hmem
      · rw [hres]
        intro hmem
        simp at hmem
    · by_cases hdeb : force = false ∧ now - wf.artifacts.last_auto_continue < 1
      · have hres : auto_continue_workflow env (n + 1) reg tid force now
            = (reg, false, []) := by
          simp only [auto_continue_workflow, hw]
          rw [if_neg hA, if_pos hdeb]
        refine ⟨?_, Or.inl hres, ?_, ?_, ?_, fun _ _ => hres⟩
        · rw [hres]
          simp
        · rw [hres]
          intro hmem
          simp at hmem
        · rw [hres]
          intro hmem
          simp at hmem
        · rw [hres]
          intro hmem
          simp at hmem
      · set fLast : Artifacts → Artifacts :=
          fun a => { a with last_auto_continue := now } with hfLast
        set reg1 : Registry := update_workflow_artifacts reg tid fLast now with hreg1
        have hctl1 : ctlOf reg1 tid = some (wf.artifacts.auto_mode, now,
            wf.artifacts.auto_continue_processing) := by
          rw [hreg1, hfLast]
          exact uwa_setLast_ctl reg tid now wf hw
        by_cases hP : wf.artifacts.auto_continue_processing = true
        · have hres : auto_continue_workflow env (n + 1) reg tid force now
              = (reg1, false, []) := by
            simp only [auto_continue_workflow, hw]
            rw [if_neg hA, if_neg hdeb, if_pos hP, hreg1, hfLast]
          refine ⟨?_, Or.inr ⟨(wf.artifacts.auto_mode, now,
              wf.artifacts.auto_continue_processing), ?_, le_refl now⟩, ?_, ?_, ?_, ?_⟩
          · rw [hres]
            simp
          · rw [hres]
            exact hctl1
          · rw [hres]
            intro hmem
            simp at hmem
          · rw [hres]
            intro hmem
            simp at hmem
          · rw [hres]
            intro hmem
            simp at hmem
          · intro hf hlt
            exact absurd ⟨hf, hlt⟩ hdeb
        · set fFlagT : Artifacts → Artifacts :=
            fun a => { a with auto_continue_processing := true } with hfFlagT
          set fFlagF : Artifacts → Artifacts :=
            fun a => { a with auto_continue_processing := false } with hfFlagF
          set reg2 : Registry := update_workflow_artifacts reg1 tid fFlagT now with hreg2
          have hctl2 : ctlOf reg2 tid = some (wf.artifacts.auto_mode, now, true) := by
            obtain ⟨wf1, hw1, h1, h2, h3⟩ :=
              ctlOf_some_elim reg1 tid _ hctl1
            rw [hreg2, hfFlagT, uwa_setFlag_ctl reg1 tid true now wf1 hw1, h1, h2]
          have hsub2 : subTasksOf reg2 tid = some wf.sub_tasks := by
            rw [hreg2, uwa_subTasks, hreg1, uwa_subTasks]
            unfold subTasksOf
            rw [hw]
            rfl
          have pack : ∀ (B : Registry × Bool × List Launch) (L : ℚ),
              auto_continue_workflow env (n + 1) reg tid force now
                = (update_workflow_artifacts B.1 tid fFlagF now, B.2.1, B.2.2) →
              ctlOf B.1 tid = some (wf.artifacts.auto_mode, L, true) →
              now ≤ L →
              B.2.2.length ≤ 1 →
              (Launch.aiGeneration ∈ B.2.2 →
                dictGet wf.sub_tasks "ai_clip_generation" = none) →
              (Launch.clipping ∈ B.2.2 → clippingFam wf.sub_tasks = []) →
              (Launch.shortsCreation ∈ B.2.2 → shortsFam wf.sub_tasks = []) →
              ((auto_continue_workflow env (n + 1) reg tid force now).2.2.length ≤ 1 ∧
              (auto_continue_workflow env (n + 1) reg tid force now = (reg, false, []) ∨
                ∃ c : Bool × ℚ × Bool,
                  ctlOf (auto_continue_workflow env (n + 1) reg tid force now).1 tid
                    = some c ∧ now ≤ c.2.1) ∧
              (Launch.aiGeneration ∈
                  (auto_continue_workflow env (n + 1) reg tid force now).2.2 →
                dictGet wf.sub_tasks "ai_clip_generation" = none) ∧
              (Launch.clipping ∈
                  (auto_continue_workflow env (n + 1) reg tid force now).2.2 →
                clippingFam wf.sub_tasks = []) ∧
              (Launch.shortsCreation ∈
                  (auto_continue_workflow env (n + 1) reg tid force now).2.2 →
                shortsFam wf.sub_tasks = []) ∧
              (force = false → now - wf.artifacts.last_auto_continue < 1 →
                auto_continue_workflow env (n + 1) reg tid force now
                  = (reg, false, []))) := by
            intro B L hfin hctl hle hlen hg1 hg2 hg3
            refine ⟨?_, Or.inr ⟨(wf.artifacts.auto_mode, L, false), ?_, hle⟩,
              ?_, ?_, ?_, ?_⟩
            · rw [hfin]
              exact hlen
            · rw [hfin]
              rw [hfFlagF]
              exact finish_ctl B.1 tid now _ L true hctl
            · rw [hfin]
              exact hg1
            · rw [hfin]
              exact hg2
            · rw [hfin]
              exact hg3
            · intro hf hlt
              exact absurd ⟨hf, hlt⟩ hdeb
          by_cases hg : (Option.map (fun x => x.status)
                (dictGet wf.sub_tasks "initial_processing")) = some TaskStatus.completed ∧
              (Option.map (fun x => x.status) (dictGet wf.sub_tasks "transcription"))
                = some TaskStatus.completed ∧
              dictGet wf.sub_tasks "ai_clip_generation" = none
          · cases hsp : wf.artifacts.system_prompt_id with
            | none =>
              refine pack (reg2, false, []) now ?_ hctl2 (le_refl now) (by simp) ?_ ?_ ?_
              · simp only [auto_continue_workflow, hw]
                rw [if_neg hA, if_neg hdeb, if_neg hP]
                rw [← hfLast, ← hreg1, ← hfFlagT, ← hreg2, ← hfFlagF]
                rw [if_pos hg]
                simp only [hsp]
              · intro hmem
                simp at hmem
              · intro hmem
                simp at hmem
              · intro hmem
                simp at hmem
            | some sp =>
              cases hup : wf.artifacts.user_prompt_id with
              | none =>
                refine pack (reg2, false, []) now ?_ hctl2 (le_refl now) (by simp) ?_ ?_ ?_
                · simp only [auto_continue_workflow, hw]
                  rw [if_neg hA, if_neg hdeb, if_neg hP]
                  rw [← hfLast, ← hreg1, ← hfFlagT, ← hreg2, ← hfFlagF]
                  rw [if_pos hg]
                  simp only [hsp, hup]
                · intro hmem
                  simp at hmem
                · intro hmem
                  simp at hmem
                · intro hmem
                  simp at hmem
              | some up =>
                by_cases hemp : sp = "" ∨ up = ""
                · refine pack (reg2, false, []) now ?_ hctl2 (le_refl now) (by simp)
                    ?_ ?_ ?_
                  · simp only [auto_continue_workflow, hw]
                    rw [if_neg hA, if_neg hdeb, if_neg hP]
                    rw [← hfLast, ← hreg1, ← hfFlagT, ← hreg2, ← hfFlagF]
                    rw [if_pos hg]
                    simp only [hsp, hup]
                    rw [if_pos hemp]
                  · intro hmem
                    simp at hmem
                  · intro hmem
                    simp at hmem
                  · intro hmem
                    simp at hmem
                · cases htp : wf.artifacts.transcription_simple_path with
                  | none =>
                    refine pack (reg2, false, []) now ?_ hctl2 (le_refl now) (by simp)
                      ?_ ?_ ?_
                    · simp only [auto_continue_workflow, hw]
                      rw [if_neg hA, if_neg hdeb, if_neg hP]
                      rw [← hfLast, ← hreg1, ← hfFlagT, ← hreg2, ← hfFlagF]
                      rw [if_pos hg]
                      simp only [hsp, hup]
                      rw [if_neg hemp]
                      simp only [htp]
                    · intro hmem
                      simp at hmem
                    · intro hmem
                      simp at hmem
                    · intro hmem
                      simp at hmem
                  | some tp =>
                    by_cases htpv : tp = "" ∨ env.fileExists tp = false
                    · refine pack (reg2, false, []) now ?_ hctl2 (le_refl now) (by simp)
                        ?_ ?_ ?_
                      · simp only [auto_continue_workflow, hw]
                        rw [if_neg hA, if_neg hdeb, if_neg hP]
                        rw [← hfLast, ← hreg1, ← hfFlagT, ← hreg2, ← hfFlagF]
                        rw [if_pos hg]
                        simp only [hsp, hup]
                        rw [if_neg hemp]
                        simp only [htp]
                        rw [if_pos htpv]
                      · intro hmem
                        simp at hmem
                      · intro hmem
                        simp at hmem
                      · intro hmem
                        simp at hmem
                    · have hctlg : ctlOf (generate_ai_clips_direct env reg2 tid sp up
                          now).1 tid = some (wf.artifacts.auto_mode, now, true) :=
                        (gacd_ctl env reg2 tid sp up now).trans hctl2
                      cases hgs : (generate_ai_clips_direct env reg2 tid sp up now).2 with
                      | false =>
                        refine pack ((generate_ai_clips_direct env reg2 tid sp up now).1,
                            false, [Launch.aiGeneration]) now ?_ hctlg (le_refl now)
                            (by simp) ?_ ?_ ?_
                        · simp only [auto_continue_workflow, hw]
                          rw [if_neg hA, if_neg hdeb, if_neg hP]
                          rw [← hfLast, ← hreg1, ← hfFlagT, ← hreg2, ← hfFlagF]
                          rw [if_pos hg]
                          simp only [hsp, hup]
                          rw [if_neg hemp]
                          simp only [htp]
                          rw [if_neg htpv]
                          rw [if_neg (by rw [hgs]; simp)]
                        · intro hmem
                          exact hg.2.2
                        · intro hmem
                          simp at hmem
                        · intro hmem
                          simp at hmem
                      | true =>
                        obtain ⟨wfg, hwg, hga, hgl, hgp⟩ :=
                          ctlOf_some_elim _ tid _ hctlg
                        rcases acw_flagged env n
                            (generate_ai_clips_direct env reg2 tid sp up now).1 tid
                            (now + 1) wfg hwg hgp with hr | hr
                        · refine pack ((generate_ai_clips_direct env reg2 tid sp up
                              now).1, false, [Launch.aiGeneration]) now ?_ hctlg
                              (le_refl now) (by simp) ?_ ?_ ?_
                          · simp only [auto_continue_workflow, hw]
                            rw [if_neg hA, if_neg hdeb, if_neg hP]
                            rw [← hfLast, ← hreg1, ← hfFlagT, ← hreg2, ← hfFlagF]
                            rw [if_pos hg]
                            simp only [hsp, hup]
                            rw [if_neg hemp]
                            simp only [htp]
                            rw [if_neg htpv]
                            rw [if_pos (by rw [hgs])]
                            rw [hr]
                          · intro hmem
                            exact hg.2.2
                          · intro hmem
                            simp at hmem
                          · intro hmem
                            simp at hmem
                        · have hctlL : ctlOf (update_workflow_artifacts
                              (generate_ai_clips_direct env reg2 tid sp up now).1 tid
                              (fun a => { a with last_auto_continue := now + 1 })
                              (now + 1)) tid
                              = some (wf.artifacts.auto_mode, now + 1, true) := by
                            rw [uwa_setLast_ctl _ tid (now + 1) wfg hwg, hga, hgp]
                          refine pack (update_workflow_artifacts
                              (generate_ai_clips_direct env reg2 tid sp up now).1 tid
                              (fun a => { a with last_auto_continue := now + 1 })
                              (now + 1), false, [Launch.aiGeneration]) (now + 1) ?_
                              hctlL (by linarith) (by simp) ?_ ?_ ?_
                          · simp only [auto_continue_workflow, hw]
                            rw [if_neg hA, if_neg hdeb, if_neg hP]
                            rw [← hfLast, ← hreg1, ← hfFlagT, ← hreg2, ← hfFlagF]
                            rw [if_pos hg]
                            simp only [hsp, hup]
                            rw [if_neg hemp]
                            simp only [htp]
                            rw [if_neg htpv]
                            rw [if_pos (by rw [hgs])]
                            rw [hr]
                          · intro hmem
                            exact hg.2.2
                          · intro hmem
                            simp at hmem
                          · intro hmem
                            simp at hmem
          · have hfin : auto_continue_workflow env (n + 1) reg tid force now
                = (update_workflow_artifacts (acwStage2 env reg2 wf tid now).1 tid
                    fFlagF now,
                  (acwStage2 env reg2 wf tid now).2.1,
                  (acwStage2 env reg2 wf tid now).2.2) := by
              simp only [auto_continue_workflow, hw]
              rw [if_neg hA, if_neg hdeb, if_neg hP]
              rw [← hfLast, ← hreg1, ← hfFlagT, ← hreg2, ← hfFlagF]
              rw [if_neg hg]
            rcases stage2_spec env reg2 wf tid now hsub2 with ⟨h1, h2⟩ |
              ⟨h1, h2, h3⟩ | ⟨h1, h2, h3⟩
            · refine pack (acwStage2 env reg2 wf tid now) now hfin ?_ (le_refl now)
                (by rw [h2]; simp) ?_ ?_ ?_
              · rw [h1]
                exact hctl2
              · intro hmem
                rw [h2] at hmem
                simp at hmem
              · intro hmem
                rw [h2] at hmem
                simp at hmem
              · intro hmem
                rw [h2] at hmem
                simp at hmem
            · refine pack (acwStage2 env reg2 wf tid now) now hfin ?_ (le_refl now)
                (by rw [h1]; simp) ?_ ?_ ?_
              · rw [h3]
                exact hctl2
              · intro hmem
                rw [h1] at hmem
                simp at hmem
              · intro hmem
                rw [h1] at hmem
                simp at hmem
              · intro hmem
                exact h2
            · refine pack (acwStage2 env reg2 wf tid now) now hfin ?_ (le_refl now)
                (by rw [h1]; simp) ?_ ?_ ?_
              · rw [h3]
                exact hctl2
              · intro hmem
                rw [h1] at hmem
                simp at hmem
              · intro hmem
                exact h2
              · intro hmem
                rw [h1] at hmem
                simp at hmem

/-! ## Claim C3 -/

/-- C3: one automaton invocation never launches a second instance of a stage
while a SubTask of that stage already exists: the singleton ai-analysis stage
is launched only when no `ai_clip_generation` SubTask exists at all, and the
clipping and shorts-creation stages only when no SubTask of their name family
exists - in particular never while one is Running or Completed. -/
theorem C3_no_double_launch (env : Env) (fuel : Nat) (reg : Registry) (tid : String)
    (force : Bool) (now : ℚ) (wf : WorkflowTask) (hw : dictGet reg tid = some wf) :
    (Launch.aiGeneration ∈ (auto_continue_workflow env fuel reg tid force now).2.2 →
      dictGet wf.sub_tasks "ai_clip_generation" = none) ∧
    (Launch.clipping ∈ (auto_continue_workflow env fuel reg tid force now).2.2 →
      clippingFam wf.sub_tasks = []) ∧
    (Launch.shortsCreation ∈ (auto_continue_workflow env fuel reg tid force now).2.2 →
      shortsFam wf.sub_tasks = []) := by
  obtain ⟨-, -, h1, h2, h3, -⟩ := acw_master env fuel reg tid force now wf hw
  exact ⟨h1, h2, h3⟩

/-- C3 witness: the launch guards evaluated on a run that launches the
ai-analysis stage. -/
theorem C3_witness :
    (Launch.aiGeneration ∈ (auto_continue_workflow envOk 3 regReady "w" false 10).2.2 →
      dictGet wfReady.sub_tasks "ai_clip_generation" = none) ∧
    (Launch.clipping ∈ (auto_continue_workflow envOk 3 regReady "w" false 10).2.2 →
      clippingFam wfReady.sub_tasks = []) ∧
    (Launch.shortsCreation ∈ (auto_continue_workflow envOk 3 regReady "w" false 10).2.2 →
      shortsFam wfReady.sub_tasks = []) :=
  C3_no_double_launch envOk 3 regReady "w" false 10 wfReady (by decide)

/-! ## Claim C4 -/

/-- C4: two sequential non-forced invocations within the one-second debounce
window perform at most one stage launch across both calls (first part); a
non-forced invocation that sees the recorded last-invocation timestamp within
the minimum interval returns `False` without launching anything or mutating
any state (second part). -/
theorem C4_debounce :
    (∀ (env : Env) (fuel1 fuel2 : Nat) (reg : Registry) (tid : String) (now1 now2 : ℚ)
      (wf : WorkflowTask), dictGet reg tid = some wf → now1 ≤ now2 → now2 < now1 + 1 →
      (auto_continue_workflow env fuel1 reg tid false now1).2.2.length
        + (auto_continue_workflow env fuel2
            (auto_continue_workflow env fuel1 reg tid false now1).1 tid false
            now2).2.2.length ≤ 1) ∧
    (∀ (env : Env) (fuel : Nat) (reg : Registry) (tid : String) (now : ℚ)
      (wf : WorkflowTask), dictGet reg tid = some wf →
      now - wf.artifacts.last_auto_continue < 1 →
      auto_continue_workflow env fuel reg tid false now = (reg, false, [])) := by
  constructor
  · intro env fuel1 fuel2 reg tid now1 now2 wf hw h12 h21
    obtain ⟨hlen1, hB, -, -, -, -⟩ := acw_master env fuel1 reg tid false now1 wf hw
    rcases hB with hEq | ⟨c, hctl, hle⟩
    · rw [hEq]
      obtain ⟨hlen2, -, -, -, -, -⟩ := acw_master env fuel2 reg tid false now2 wf hw
      simpa using hlen2
    · obtain ⟨wf1, hw1, -, hL1, -⟩ := ctlOf_some_elim _ tid c hctl
      obtain ⟨-, -, -, -, -, hdeb2⟩ :=
        acw_master env fuel2 (auto_continue_workflow env fuel1 reg tid false now1).1 tid
          false now2 wf1 hw1
      have hlt : now2 - wf1.artifacts.last_auto_continue < 1 := by
        rw [hL1]
        linarith
      rw [hdeb2 rfl hlt]
      simpa using hlen1
  · intro env fuel reg tid now wf hw hlt
    obtain ⟨-, -, -, -, -, hdeb⟩ := acw_master env fuel reg tid false now wf hw
    exact hdeb rfl hlt

/-- C4 witness: a launching call at time 10 followed by a call at time 10.5
performs at most one launch in total, and a call inside the debounce window of
a stored stamp 9.5 is an exact no-op. -/
theorem C4_witness :
    ((auto_continue_workflow envOk 3 regReady "w" false 10).2.2.length
      + (auto_continue_workflow envOk 3
          (auto_continue_workflow envOk 3 regReady "w" false 10).1 "w" false
          (21 / 2)).2.2.length ≤ 1) ∧
    auto_continue_workflow envOk 3 regDeb "w" false 10 = (regDeb, false, []) :=
  ⟨C4_debounce.1 envOk 3 3 regReady "w" 10 (21 / 2) wfReady (by decide) (by norm_num)
      (by norm_num),
    C4_debounce.2 envOk 3 regDeb "w" 10 wfDeb rfl
      (show (10 : ℚ) - wfDeb.artifacts.last_auto_continue < 1 by
        show (10 : ℚ) - 19 / 2 < 1
        norm_num)⟩

/-! ## Claim C5 -/

/-- C5: the tail recursion after the synchronously completed AI-analysis stage
is not an effective re-evaluation. On a workflow that is fully eligible for
clipping once AI analysis completes, one invocation performs only the
AI-analysis launch and returns `False`: the forced recursive call exits at the
`_auto_continue_processing` flag, which the outer call has not yet cleared, so
clipping is not launched in the same outer call - even though the resulting
state is clipping-eligible, as the follow-up forced invocation shows. -/
theorem C5_recursion_blocked :
    (auto_continue_workflow envOk 5 regReady "w" false 10).2.2 = [Launch.aiGeneration] ∧
    (auto_continue_workflow envOk 5 regReady "w" false 10).2.1 = false ∧
    subStatusOf (auto_continue_workflow envOk 5 regReady "w" false 10).1 "w"
        "ai_clip_generation" = some TaskStatus.completed ∧
    ((dictGet (auto_continue_workflow envOk 5 regReady "w" false 10).1 "w").map
        fun w => clippingFam w.sub_tasks) = some [] ∧
    (auto_continue_workflow envOk 5
        (auto_continue_workflow envOk 5 regReady "w" false 10).1 "w" true 20).2.2
      = [Launch.clipping] := by
  refine ⟨?_, ?_, ?_, ?_, ?_⟩ <;> with_unfolding_all rfl

end VideoMaker
